import Mathlib

/-!
Shallow embedding of the dex-guru meta-aggregation-api core, written from the
source under `src/meta_aggregation_api/`, together with theorems settling the
frozen claims about the natural-language specification.

Conventions used throughout:
* Python `int` values are modelled as `Nat` (all quantities in the embedded
  code paths are non-negative integers: wei amounts, gas units, decimals).
* Python `Decimal` arithmetic in the profit computation is modelled over `ℚ`
  with the default `decimal` context applied to every operation result:
  `decimalRound28` rounds a non-zero rational to 28 significant decimal
  digits with round-half-even, exactly as `decimal.Context(prec=28,
  rounding=ROUND_HALF_EVEN)` does for in-range values.
* Fallible Python code is modelled with `Except PyExc`; each `PyExc`
  constructor names the Python exception class the source raises.
* Python `dict` literals built by repeated assignment are modelled by
  `dictInsert`/`dictOfPairs`, which reproduce CPython's insertion-order and
  replace-in-place semantics.
-/

set_option maxHeartbeats 1000000

namespace MetaAggApi

/-- Exceptions that the embedded code paths can raise.  `valueError`,
`attributeError`, `notImplementedError`, `statisticsError` and `indexError`
are the Python builtins (`statistics.StatisticsError` for `mean([])`);
`providerNotFound` is `ProviderNotFound` from `utils/errors.py` (our-owned,
HTTP 417); `aggregationProviderError` is the provider-owned unspecified kind
(`AggregationProviderError`, HTTP 409 — the spec calls it `ProviderUnspecified`). -/
inductive PyExc where
  | valueError (msg : String)
  | providerNotFound (provider : String)
  | notImplementedError (msg : String)
  | attributeError (msg : String)
  | aggregationProviderError (provider : String) (msg : String)
  | parseResponseError (msg : String)
  | statisticsError
  | indexError
deriving DecidableEq

/-! ## Gas models — `models/gas_models.py` -/

/-- `Eip1559Model`: one fee tier of an EIP-1559 gas report. -/
structure Eip1559Model where
  max_fee : ℕ
  base_fee : ℕ
  max_priority_fee : ℕ
deriving DecidableEq

/-- `GasPriceEip1559Model`: the three EIP-1559 tiers. -/
structure GasPriceEip1559Model where
  fast : Eip1559Model
  instant : Eip1559Model
  overkill : Eip1559Model
deriving DecidableEq

/-- `LegacyGasPriceModel`: the three legacy tiers (single wei value each). -/
structure LegacyGasPriceModel where
  fast : ℕ
  instant : ℕ
  overkill : ℕ
deriving DecidableEq

/-- `GasResponse` from `models/gas_models.py`: exactly one of `eip1559` /
`legacy` is populated by the gas service. -/
structure GasResponse where
  source : String
  timestamp : ℕ
  eip1559 : Option GasPriceEip1559Model := none
  legacy : Option LegacyGasPriceModel := none
deriving DecidableEq

/-! ## Gas service — `services/gas_service.py` -/

/-- `GAS_SOURCE` constant from `services/gas_service.py`. -/
def GAS_SOURCE : String := "DEXGURU"

/-- The result shape of `w3.eth.fee_history`: per-block percentile rewards and
the base-fee series (the embedding takes the chain's answer as input). -/
structure FeeHistory where
  reward : List (List ℕ)
  baseFeePerGas : List ℕ
deriving DecidableEq

/-- The arguments `get_gas_prices_eip1559` passes to `fee_history`
(`fee_history(4, 'latest', [60, 75, 90])` at `services/gas_service.py:52`). -/
structure FeeHistoryCall where
  blockCount : ℕ
  newestBlock : String
  rewardPercentiles : List ℕ
deriving DecidableEq

/-- The constant call made by the source: `fee_history(4, 'latest', [60, 75, 90])`. -/
def feeHistoryCallArgs : FeeHistoryCall :=
  { blockCount := 4, newestBlock := "latest", rewardPercentiles := [60, 75, 90] }

/-- The list comprehension `[_[i] for _ in reward]`: extract column `i` of the
reward rows; a too-short row raises `IndexError`. -/
def rewardColumn (i : ℕ) : List (List ℕ) → Except PyExc (List ℕ)
  | [] => .ok []
  | row :: rest =>
    match row.get? i with
    | none => .error .indexError
    | some x => (rewardColumn i rest).map (fun xs => x :: xs)

/-- `int(mean(xs))` on a list of non-negative ints: `statistics.mean` computes
the exact mean (`Fraction`-based) and `int` truncates toward zero, which on
non-negative data is exactly `Nat` division `xs.sum / xs.length`;
`mean([])` raises `StatisticsError`. -/
def intMean (xs : List ℕ) : Except PyExc ℕ :=
  match xs with
  | [] => .error .statisticsError
  | _ => .ok (xs.sum / xs.length)

/-- `GasService.get_gas_prices_eip1559` (`services/gas_service.py:50-86`).
The fee-history answer is the `gasHistory` input; `now` stands for `time()`. -/
def get_gas_prices_eip1559 (now : ℕ) (gasHistory : FeeHistory) :
    Except PyExc GasResponse :=
  match gasHistory.baseFeePerGas.getLast? with
  | none => .error .indexError
  | some base_fee =>
    match rewardColumn 0 gasHistory.reward, rewardColumn 1 gasHistory.reward,
        rewardColumn 2 gasHistory.reward with
    | .ok reward_fast, .ok reward_instant, .ok reward_overkill =>
      match intMean reward_fast, intMean reward_instant, intMean reward_overkill with
      | .ok fast_priority, .ok instant_priority, .ok overkill_priority =>
        .ok { source := GAS_SOURCE, timestamp := now,
              eip1559 := some {
                fast := { max_fee := base_fee + fast_priority,
                          base_fee := base_fee,
                          max_priority_fee := fast_priority },
                instant := { max_fee := base_fee + instant_priority,
                             base_fee := base_fee,
                             max_priority_fee := instant_priority },
                overkill := { max_fee := base_fee + overkill_priority,
                              base_fee := base_fee,
                              max_priority_fee := overkill_priority } } }
      | .error e, _, _ => .error e
      | _, .error e, _ => .error e
      | _, _, .error e => .error e
    | .error e, _, _ => .error e
    | _, .error e, _ => .error e
    | _, _, .error e => .error e

/-- `GasService.get_gas_prices_legacy` (`services/gas_service.py:88-101`):
the chain's `gas_price` answer is the `gas_price` input. -/
def get_gas_prices_legacy (now gas_price : ℕ) : GasResponse :=
  { source := GAS_SOURCE, timestamp := now,
    legacy := some { fast := gas_price, instant := gas_price, overkill := gas_price } }

/-- `GasService.get_gas_prices` (`services/gas_service.py:37-42`): dispatch on
the chain's `eip1559` flag. -/
def get_gas_prices (eip1559Flag : Bool) (now : ℕ) (gasHistory : FeeHistory)
    (gas_price : ℕ) : Except PyExc GasResponse :=
  if eip1559Flag then get_gas_prices_eip1559 now gasHistory
  else .ok (get_gas_prices_legacy now gas_price)

/-- The exact arithmetic mean, as the specification's words describe it
(for comparison against what the code computes). -/
def exactMean (xs : List ℕ) : ℚ := (xs.sum : ℚ) / xs.length

/-! ## Python dict semantics

CPython dicts preserve insertion order; assigning to an existing key
replaces the value in place.  Modelled as association lists. -/

/-- `d[k] = v` on a Python dict. -/
def dictInsert {α : Type} (d : List (String × α)) (k : String) (v : α) :
    List (String × α) :=
  if d.any (fun kv => kv.1 = k) then
    d.map (fun kv => if kv.1 = k then (k, v) else kv)
  else d ++ [(k, v)]

/-- A dict built by inserting the pairs left to right, starting empty
(the source's dict comprehensions and assignment loops). -/
def dictOfPairs {α : Type} (ps : List (String × α)) : List (String × α) :=
  ps.foldl (fun d kv => dictInsert d kv.1 kv.2) []

/-! ## Engine models — `models/meta_agg_models.py`

`ProviderPriceResponse` stores its numeric fields as decimal strings of
integers; `choose_best_provider` reads them back through `Decimal(...)`,
so the engine-facing embedding carries the numbers themselves.  The
informational `price` and `sources` fields are never read by the engine
and are omitted here (the adapter-facing embeddings below carry them). -/

structure ProviderPriceResponse where
  provider : String
  buy_amount : ℕ
  gas : ℕ
  sell_amount : ℕ
  gas_price : ℕ
  value : ℕ := 0
  allowance_target : Option String := none
deriving DecidableEq

/-- `MetaPriceModel` from `models/meta_agg_models.py`. -/
structure MetaPriceModel where
  provider : String
  price_response : ProviderPriceResponse
  is_allowed : Bool
  is_best : Option Bool := none
  approve_cost : ℕ := 0
deriving DecidableEq

/-! ## Aggregation engine — `services/meta_aggregation_service.py`

Network effects are inputs of the embedding: each provider task's outcome,
the on-chain allowance / approve-gas answers, the token decimals and the
buy-token native price arrive as parameters.  Python `Decimal` arithmetic
is modelled as exact `ℚ` arithmetic. -/

/-- `round-half-even` of a rational to an integer — the rounding step of
Python's default `decimal` context (`ROUND_HALF_EVEN`). -/
def roundHalfEven (x : ℚ) : ℤ :=
  let f := ⌊x⌋
  let r := x - f
  if r < 1 / 2 then f
  else if 1 / 2 < r then f + 1
  else if 2 ∣ f then f else f + 1

/-- Round a rational to 28 significant decimal digits, half-even — the
default `decimal` context that Python applies to the result of every
`Decimal` arithmetic operation in `choose_best_provider` (`getcontext()`
has `prec = 28`); a result that already fits in 28 digits is unchanged. -/
def decimalRound28 (q : ℚ) : ℚ :=
  if q = 0 then 0
  else
    let E : ℤ := Int.log 10 |q| - 27
    (roundHalfEven (q / (10 : ℚ) ^ E) : ℚ) * (10 : ℚ) ^ E

/-- The profit computed for one provider inside `choose_best_provider`
(`services/meta_aggregation_service.py:374-388`).  The source computes in
Python `Decimal` under the default context, so every `*`, `+`, `/`, `-`
rounds its exact result to 28 significant digits (half-even) —
`decimalRound28` models exactly that; the final `>` comparison is exact on
the rounded values.  `Decimal(...)` construction from the model's integer
strings and from `str(buy_token_price)` is exact. -/
def profitOf (price_response : ProviderPriceResponse) (approve_cost : ℕ)
    (native_decimals buy_token_decimals : ℕ) (buy_token_price : ℚ) : ℚ :=
  let tx_gas_cost : ℚ :=
    decimalRound28 ((price_response.gas : ℚ) * (price_response.gas_price : ℚ))
  let approve_gas_cost : ℚ :=
    decimalRound28 ((approve_cost : ℚ) * (price_response.gas_price : ℚ))
  let sum_cost : ℚ :=
    decimalRound28 (decimalRound28 (tx_gas_cost + approve_gas_cost) /
      (10 : ℚ) ^ native_decimals)
  let buy_token_amount : ℚ :=
    decimalRound28 ((price_response.buy_amount : ℚ) / (10 : ℚ) ^ buy_token_decimals)
  let buy_token_in_native : ℚ := decimalRound28 (buy_token_amount * buy_token_price)
  decimalRound28 (buy_token_in_native - sum_cost)

/-- The profit as the CLAIM's words compute it — exact rational
arithmetic, no context rounding (for comparison with what the code's
`Decimal` arithmetic produces). -/
def exactProfit (price_response : ProviderPriceResponse) (approve_cost : ℕ)
    (native_decimals buy_token_decimals : ℕ) (buy_token_price : ℚ) : ℚ :=
  (price_response.buy_amount : ℚ) / (10 : ℚ) ^ buy_token_decimals * buy_token_price -
    ((price_response.gas : ℚ) + (approve_cost : ℚ)) * (price_response.gas_price : ℚ) /
      (10 : ℚ) ^ native_decimals

/-- One iteration of the `for provider, price_response in prices.items()`
loop of `choose_best_provider`: keep the incumbent unless the new profit is
strictly greater (`if best_profit is None or profit > best_profit`).
The `if not price_response: continue` guard of the source never fires
(pydantic model instances are always truthy) and has no counterpart here. -/
def bestStep (approve_costs : String → ℕ) (native_decimals buy_token_decimals : ℕ)
    (buy_token_price : ℚ) (acc : Option (String × ProviderPriceResponse × ℚ))
    (entry : String × ProviderPriceResponse) :
    Option (String × ProviderPriceResponse × ℚ) :=
  let profit := profitOf entry.2 (approve_costs entry.1) native_decimals
    buy_token_decimals buy_token_price
  match acc with
  | none => some (entry.1, entry.2, profit)
  | some best => if best.2.2 < profit then some (entry.1, entry.2, profit) else some best

/-- `MetaAggregationService.choose_best_provider`
(`services/meta_aggregation_service.py:311-393`): returns the best provider
name and its price response. -/
def choose_best_provider (prices : List (String × ProviderPriceResponse))
    (approve_costs : String → ℕ) (native_decimals buy_token_decimals : ℕ)
    (buy_token_price : ℚ) : Option String × Option ProviderPriceResponse :=
  match prices.foldl
      (bestStep approve_costs native_decimals buy_token_decimals buy_token_price) none with
  | none => (none, none)
  | some best => (some best.1, some best.2.1)

/-- Reference recursion equivalent to folding `bestStep` from a seeded
incumbent; used to reason about `choose_best_provider`. -/
def pickBest (approve_costs : String → ℕ) (native_decimals buy_token_decimals : ℕ)
    (buy_token_price : ℚ) :
    (String × ProviderPriceResponse × ℚ) → List (String × ProviderPriceResponse) →
      (String × ProviderPriceResponse × ℚ)
  | best, [] => best
  | best, e :: rest =>
    let profit := profitOf e.2 (approve_costs e.1) native_decimals
      buy_token_decimals buy_token_price
    if best.2.2 < profit then
      pickBest approve_costs native_decimals buy_token_decimals buy_token_price
        (e.1, e.2, profit) rest
    else
      pickBest approve_costs native_decimals buy_token_decimals buy_token_price best rest

/-- The `prices` dict of `get_swap_meta_price`
(`services/meta_aggregation_service.py:234-238`): the dict comprehension
over the `asyncio.gather(..., return_exceptions=True)` outcomes keeps the
successes, keyed by the response's `provider` field. -/
def successPrices (outcomes : List (String × Except PyExc ProviderPriceResponse)) :
    List (String × ProviderPriceResponse) :=
  dictOfPairs (((outcomes.map Prod.snd).filterMap Except.toOption).map
    (fun price => (price.provider, price)))

/-- One element of the list comprehension closing `get_swap_meta_price`
(`services/meta_aggregation_service.py:268-277`). -/
def mkMetaPrice (approve_costs : String → ℕ) (best_provider : Option String)
    (kv : String × ProviderPriceResponse) : MetaPriceModel :=
  { provider := kv.1, price_response := kv.2,
    is_allowed := decide (approve_costs kv.1 = 0),
    is_best := some (decide (best_provider = some kv.1)),
    approve_cost := approve_costs kv.1 }

/-- `MetaAggregationService.get_swap_meta_price`
(`services/meta_aggregation_service.py:139-277`), after the fan-out: each
element of `outcomes` is one provider task of the gather call, tagged with
the provider's config name; `if not any(prices)` is Python truthiness over
the dict's keys (a key is truthy iff it is a non-empty string);
`approve_costs` abstracts the dict returned by
`get_approve_costs_per_provider`. -/
def get_swap_meta_price
    (outcomes : List (String × Except PyExc ProviderPriceResponse))
    (approve_costs : String → ℕ)
    (native_decimals buy_token_decimals : ℕ)
    (buy_token_price : ℚ) : Except PyExc (List MetaPriceModel) :=
  let prices := successPrices outcomes
  if prices.all (fun kv => kv.1 = "") then .error (.valueError "No prices found")
  else
    let best := (choose_best_provider prices approve_costs native_decimals
      buy_token_decimals buy_token_price).1
    .ok (prices.map (mkMetaPrice approve_costs best))

/-- Profit of one `prices` dict entry (name, response), with the approve
cost looked up by name — the quantity `choose_best_provider` maximises. -/
def entryProfit (approve_costs : String → ℕ)
    (native_decimals buy_token_decimals : ℕ) (buy_token_price : ℚ)
    (e : String × ProviderPriceResponse) : ℚ :=
  profitOf e.2 (approve_costs e.1) native_decimals buy_token_decimals buy_token_price

/-- Profit of a returned `MetaPriceModel`, read off the model's own fields. -/
def metaProfit (native_decimals buy_token_decimals : ℕ) (buy_token_price : ℚ)
    (m : MetaPriceModel) : ℚ :=
  profitOf m.price_response m.approve_cost native_decimals buy_token_decimals
    buy_token_price

/-! ## Allowance / approve probes -/

/-- Python truthiness of an optional string (`not owner_address` is true for
both `None` and `''`). -/
def pyStrFalsy : Option String → Bool
  | none => true
  | some s => s = ""

/-- `MetaAggregationService.get_token_allowance`
(`services/meta_aggregation_service.py:63-79`).  `chainAllowance` is the
value the on-chain `allowance(owner, spender)` call would return; the
boolean records whether that on-chain call was made. -/
def get_token_allowance (native_token_address token_address : String)
    (owner_address : Option String) (chainAllowance : ℕ) : ℕ × Bool :=
  if token_address = native_token_address ∨ pyStrFalsy owner_address then
    (2 ^ 256 - 1, false)
  else (chainAllowance, true)

/-- One entry of `ProvidersConfig.get_providers_on_chain(chain_id)['market_order']`:
provider name and spender address. -/
structure SpenderEntry where
  name : String
  address : String
deriving DecidableEq

/-- `MetaAggregationService.get_approve_costs_per_provider`
(`services/meta_aggregation_service.py:95-137`).  `chainAllowance` and
`approveGasEstimate` give, per spender address, the answers of the on-chain
allowance read and of the `approve` gas estimation. -/
def get_approve_costs_per_provider (native_token_address sell_token : String)
    (sell_amount : ℕ) (providers_ : List SpenderEntry)
    (taker_address : Option String)
    (chainAllowance : String → ℕ) (approveGasEstimate : String → ℕ) :
    List (String × ℕ) :=
  providers_.foldl (fun acc provider =>
    if pyStrFalsy taker_address then dictInsert acc provider.name 0
    else
      let allowance := (get_token_allowance native_token_address sell_token
        taker_address (chainAllowance provider.address)).1
      if allowance < sell_amount then
        dictInsert acc provider.name (approveGasEstimate provider.address)
      else dictInsert acc provider.name 0) []

/-- `MetaAggregationService.get_provider_price`
(`services/meta_aggregation_service.py:449-542`).  The source resolves
`provider_instance = self.provider_registry.get(provider)` but then tests
`if not provider:` — the NAME string — so only a falsy name raises
`ProviderNotFound`; an unknown non-empty name sails past the check and
crashes with `AttributeError` when `provider_instance.get_swap_price` is
called on `None` (after the allowance work).  `price` is what the provider
adapter would return. -/
def get_provider_price (registry_contains : String → Bool) (provider : String)
    (descriptor_spender : Option String)
    (native_token_address sell_token : String) (sell_amount : ℕ)
    (taker_address : Option String)
    (chainAllowance : Option String → ℕ) (approveGasEstimate : ℕ)
    (price : ProviderPriceResponse) : Except PyExc MetaPriceModel :=
  if provider = "" then .error (.providerNotFound provider)
  else
    let allowance := (get_token_allowance native_token_address sell_token
      taker_address (chainAllowance descriptor_spender)).1
    let approve_cost := if allowance < sell_amount then approveGasEstimate else 0
    if registry_contains provider then
      .ok { provider := provider, price_response := price,
            is_allowed := decide (allowance ≠ 0), is_best := none,
            approve_cost := approve_cost }
    else .error (.attributeError "NoneType object has no attribute get_swap_price")

/-- `MetaAggregationService.get_crosschain_provider_price`
(`services/meta_aggregation_service.py:601-706`).  This variant checks the
resolved `provider_instance`, so an unknown name does raise
`ProviderNotFound`; a `None` `allowance_target` falls back to the static
descriptor's spender for the source chain. -/
def get_crosschain_provider_price (registry_contains : String → Bool)
    (provider : String) (descriptor_spender : Option String)
    (native_token_address sell_token : String) (sell_amount : ℕ)
    (taker_address : Option String)
    (chainAllowance : Option String → ℕ) (approveGasEstimate : ℕ)
    (price : ProviderPriceResponse) : Except PyExc MetaPriceModel :=
  if ¬ registry_contains provider then .error (.providerNotFound provider)
  else
    let spender_address := match price.allowance_target with
      | none => descriptor_spender
      | some target => some target
    let allowance := (get_token_allowance native_token_address sell_token
      taker_address (chainAllowance spender_address)).1
    let approve_cost := if allowance < sell_amount then approveGasEstimate else 0
    .ok { provider := provider, price_response := price,
          is_allowed := decide (allowance ≠ 0), is_best := none,
          approve_cost := approve_cost }

/-! ## Limit-order facade — `services/limit_orders.py`

The capability check of the source is `isinstance(provider_instance,
OneInchProviderV5)` / `isinstance(provider_instance, DebridgeDlnProviderV1)`;
the registry is modelled as a map from name to the adapter's class. -/

/-- The class of a registered adapter, as far as the facade's `isinstance`
checks can tell them apart. -/
inductive AdapterClass where
  | oneInchProviderV5
  | debridgeDlnProviderV1
  | otherAdapter
deriving DecidableEq

/-- `LimitOrdersService.get_by_wallet_address` (`services/limit_orders.py:38-78`).
`adapterOrders` is what `provider_instance.get_orders_by_trader` would
return; error paths never consult it. -/
def limit_orders_get_by_wallet_address {α : Type}
    (provider_registry : String → Option AdapterClass) (provider : String)
    (adapterOrders : α) : Except PyExc α :=
  match provider_registry provider with
  | none => .error (.providerNotFound provider)
  | some cls =>
    if cls = .oneInchProviderV5 ∨ cls = .debridgeDlnProviderV1 then .ok adapterOrders
    else .error (.notImplementedError ("provider " ++ provider ++ " is not supported"))

/-- `LimitOrdersService.get_by_hash` (`services/limit_orders.py:80-101`). -/
def limit_orders_get_by_hash {α : Type}
    (provider_registry : String → Option AdapterClass) (provider : String)
    (adapterOrder : α) : Except PyExc α :=
  match provider_registry provider with
  | none => .error (.providerNotFound provider)
  | some cls =>
    if cls = .oneInchProviderV5 ∨ cls = .debridgeDlnProviderV1 then .ok adapterOrder
    else .error (.notImplementedError ("provider " ++ provider ++ " is not supported"))

/-- `LimitOrdersService.post` (`services/limit_orders.py:103-128`): only
`OneInchProviderV5` passes the capability check here. -/
def limit_orders_post {α : Type}
    (provider_registry : String → Option AdapterClass) (provider : String)
    (adapterResponse : α) : Except PyExc α :=
  match provider_registry provider with
  | none => .error (.providerNotFound provider)
  | some cls =>
    if cls = .oneInchProviderV5 then .ok adapterResponse
    else .error (.notImplementedError ("provider " ++ provider ++ " is not supported"))

/-! ## Provider adapters — `providers/zerox_v1/zerox_provider.py` and
`providers/one_inch_v5/one_inch_provider.py`

Each adapter's `PROVIDER_NAME` is read from its `config.json` (not part of
the embedded computation), so the conversion functions take the name as a
parameter.  The pydantic `SwapSources.__init__` renaming of venue names
(camelCase → CapCamel) is pure string cosmetics on an informational field
and is not modelled; names are carried verbatim. -/

/-- One raw liquidity-source entry of an upstream response: `name`,
`proportion` (a fraction in `[0, 1]`), optional `hops` list. -/
structure RawSource where
  name : String
  proportion : ℚ
  hops : List String := []
deriving DecidableEq

/-- `SwapSources` (`models/provider_response_models.py`): venue name plus
proportion in percent. -/
structure SwapSources where
  name : String
  proportion : ℚ
deriving DecidableEq

/-- `ZeroXProviderV1.convert_sources_for_meta_aggregation`
(`providers/zerox_v1/zerox_provider.py:132-159`): `if not sources: return`
yields `None` on an empty input; otherwise drop zero-proportion sources,
flatten `hops` into one source per hop carrying the parent's proportion,
and convert proportions to percent. -/
def convert_sources_for_meta_aggregation (sources : List RawSource) :
    Option (List SwapSources) :=
  if sources = [] then none
  else
    some (sources.foldl (fun converted_sources source =>
      if source.proportion = 0 then converted_sources
      else if source.hops ≠ [] then
        converted_sources ++ source.hops.map
          (fun hop => { name := hop, proportion := source.proportion * 100 })
      else
        converted_sources ++
          [{ name := source.name, proportion := source.proportion * 100 }]) [])

/-- The body of a 0x `/swap/v1/price` answer, with the fields
`_convert_response_from_swap_price` reads (all strings or JSON numbers,
kept verbatim by the pydantic `str` fields). -/
structure ZeroXPriceUpstream where
  sources : List RawSource
  buyAmount : String
  gas : String
  sellAmount : String
  gasPrice : String
  value : String
  price : String
deriving DecidableEq

/-- The `ProviderPriceResponse` pydantic model as the 0x adapter fills it:
every numeric field is the upstream's string, passed through. -/
structure ProviderPriceResponseRaw where
  provider : String
  sources : List SwapSources
  buy_amount : String
  gas : String
  sell_amount : String
  gas_price : String
  value : String
  price : String
deriving DecidableEq

/-- `ZeroXProviderV1._convert_response_from_swap_price`
(`providers/zerox_v1/zerox_provider.py:161-180`).  When the upstream's
`sources` is empty, `convert_sources_for_meta_aggregation` returns `None`;
the pydantic field `sources: List[SwapSources]` rejects `None` with a
`ValidationError`, which the `except (KeyError, ValidationError)` clause
maps through `handle_exception` (`providers/base_provider.py:96-102`) to
the taxonomy's `ParseResponseError` and re-raises.  Otherwise every
numeric field of the upstream is passed through verbatim. -/
def zerox_convert_response_from_swap_price (provider_name : String)
    (response : ZeroXPriceUpstream) : Except PyExc ProviderPriceResponseRaw :=
  match convert_sources_for_meta_aggregation response.sources with
  | none => .error (.parseResponseError "none is not an allowed value: sources")
  | some sources =>
    .ok { provider := provider_name,
          sources := sources,
          buy_amount := response.buyAmount,
          gas := response.gas,
          sell_amount := response.sellAmount,
          gas_price := response.gasPrice,
          value := response.value,
          price := response.price }

/-- Token-info sub-object of a 1inch quote answer. -/
structure OneInchTokenInfo where
  decimals : ℕ
deriving DecidableEq

/-- The body of a 1inch `quote` answer, with the fields
`OneInchProviderV5.get_swap_price` reads. -/
structure OneInchQuoteResponse where
  fromToken : OneInchTokenInfo
  toToken : OneInchTokenInfo
  toTokenAmount : ℕ
  fromTokenAmount : ℕ
  estimatedGas : ℕ
  protocols : List RawSource := []
deriving DecidableEq

/-- The `ProviderPriceResponse` model as the 1inch adapter fills it: the
`value` and `price` fields receive `str(...)` of Python binary floats; the
embedding carries the exact rational the float computation approximates
(at every input exercised below, the float arithmetic is exact, so the two
agree). -/
structure ProviderPriceResponseQ where
  provider : String
  buy_amount : ℕ
  gas : ℕ
  sell_amount : ℕ
  gas_price : ℕ
  value : ℚ
  price : ℚ
deriving DecidableEq

/-- The response-conversion tail of `OneInchProviderV5.get_swap_price`
(`providers/one_inch_v5/one_inch_provider.py:302-324`): the local
`sell_amount` is REASSIGNED to the humanized amount
`int(sell_amount) / 10 ** fromToken.decimals` before `value = str(sell_amount)`
runs on a native sell, so `value` holds the humanized amount, not base
units.  `native_token_address` is `config.NATIVE_TOKEN_ADDRESS`
(`0xeeee…eeee`); `sell_token` is assumed already lowercase
(`sell_token.lower()` in the source). -/
def one_inch_get_swap_price (provider_name native_token_address sell_token : String)
    (sell_amount : ℕ) (gas_price : Option ℕ)
    (response : OneInchQuoteResponse) : ProviderPriceResponseQ :=
  let sell_amount_human : ℚ :=
    (sell_amount : ℚ) / (10 : ℚ) ^ response.fromToken.decimals
  let buy_amount_human : ℚ :=
    (response.toTokenAmount : ℚ) / (10 : ℚ) ^ response.toToken.decimals
  let price := buy_amount_human / sell_amount_human
  let value : ℚ := if sell_token = native_token_address then sell_amount_human else 0
  { provider := provider_name,
    buy_amount := response.toTokenAmount,
    gas := response.estimatedGas,
    sell_amount := response.fromTokenAmount,
    gas_price := gas_price.getD 0,
    value := value,
    price := price }

/-- `config.NATIVE_TOKEN_ADDRESS` from `config/__init__.py`. -/
def NATIVE_TOKEN_ADDRESS : String := "0xeeeeeeeeeeeeeeeeeeeeeeeeeeeeeeeeeeeeeeee"

/-- Does a result carry the provider-owned unspecified taxonomy error
(`AggregationProviderError`, the spec's `ProviderUnspecified`, HTTP 409)? -/
def raisesProviderUnspecified {α : Type} : Except PyExc α → Bool
  | .error (.aggregationProviderError _ _) => true
  | _ => false

/-! Concrete sample values used to instantiate the theorems. -/

/-- A sample adapter price response. -/
def sampleResp : ProviderPriceResponse :=
  { provider := "one_inch", buy_amount := 100, gas := 150000,
    sell_amount := 10, gas_price := 20 }

/-- Sample fan-out result: two providers, both successful. -/
def c1Resp1 : ProviderPriceResponse :=
  { provider := "one_inch", buy_amount := 100, gas := 1, sell_amount := 10, gas_price := 1 }

/-- Second sample response, with the better quote. -/
def c1Resp2 : ProviderPriceResponse :=
  { provider := "zero_x", buy_amount := 200, gas := 1, sell_amount := 10, gas_price := 1 }

/-- A two-provider all-success run. -/
def c1Outcomes : List (String × Except PyExc ProviderPriceResponse) :=
  [("one_inch", .ok c1Resp1), ("zero_x", .ok c1Resp2)]

/-- What `get_swap_meta_price` returns on `c1Outcomes` with zero approve
costs, decimals 0, and buy-token native price 1. -/
def c1MetaList : List MetaPriceModel :=
  [{ provider := "one_inch", price_response := c1Resp1, is_allowed := true,
     is_best := some false, approve_cost := 0 },
   { provider := "zero_x", price_response := c1Resp2, is_allowed := true,
     is_best := some true, approve_cost := 0 }]

/-- First response of the Decimal-rounding counterexample: a buy amount
with 30 significant digits (`10^29 + 1`), zero gas cost. -/
def c1CexResp1 : ProviderPriceResponse :=
  { provider := "one_inch", buy_amount := 10 ^ 29 + 1, gas := 0,
    sell_amount := 10 ^ 18, gas_price := 0 }

/-- Second response of the Decimal-rounding counterexample: one base unit
more (`10^29 + 2`), so its exact profit is strictly larger. -/
def c1CexResp2 : ProviderPriceResponse :=
  { provider := "zero_x", buy_amount := 10 ^ 29 + 2, gas := 0,
    sell_amount := 10 ^ 18, gas_price := 0 }

/-- The Decimal-rounding counterexample run: both providers succeed. -/
def c1CexOutcomes : List (String × Except PyExc ProviderPriceResponse) :=
  [("one_inch", .ok c1CexResp1), ("zero_x", .ok c1CexResp2)]

/-- What `get_swap_meta_price` returns on `c1CexOutcomes` (18-decimals
token, native price 1, no approve costs): both Decimal profits round to
`10^11`, so the tie keeps the FIRST provider even though the second one's
exact profit is strictly larger. -/
def c1CexMetaList : List MetaPriceModel :=
  [{ provider := "one_inch", price_response := c1CexResp1, is_allowed := true,
     is_best := some true, approve_cost := 0 },
   { provider := "zero_x", price_response := c1CexResp2, is_allowed := true,
     is_best := some false, approve_cost := 0 }]

/-- A run with one success and one provider failure. -/
def c2Outcomes : List (String × Except PyExc ProviderPriceResponse) :=
  [("one_inch", .ok c1Resp1),
   ("zero_x", .error (.aggregationProviderError "zero_x" "upstream timeout"))]

/-- The `MetaPriceModel` that `get_provider_price` builds when the taker's
allowance is 1 against a sell amount of 2 and the approve estimation says
50000 gas: `is_allowed` is `bool(allowance) = True` even though
`approve_cost` is nonzero. -/
def c4Meta : MetaPriceModel :=
  { provider := "one_inch", price_response := sampleResp, is_allowed := true,
    is_best := none, approve_cost := 50000 }

lemma rewardColumn_length {i : ℕ} : ∀ {rows : List (List ℕ)} {c : List ℕ},
    rewardColumn i rows = .ok c → c.length = rows.length := by
  intro rows
  induction rows with
  | nil => intro c h; cases h; rfl
  | cons row rest ih =>
    intro c h
    unfold rewardColumn at h
    cases hr : row.get? i with
    | none => rw [hr] at h; cases h
    | some x =>
      rw [hr] at h
      cases hrest : rewardColumn i rest with
      | error e => rw [hrest] at h; cases h
      | ok xs =>
        rw [hrest] at h
        cases h
        simp [ih hrest]

lemma intMean_of_ne_nil {xs : List ℕ} (h : xs ≠ []) :
    intMean xs = .ok (xs.sum / xs.length) := by
  cases xs with
  | nil => exact absurd rfl h
  | cons a l => rfl

/-- Helper: on a well-formed fee-history answer (non-empty base-fee series,
non-empty reward rows, each row carrying at least three percentile entries)
the EIP-1559 path succeeds, with each tier's priority the truncated mean of
its percentile column and `max_fee = base_fee + priority`. -/
lemma gas_eip1559_ok (now : ℕ) (h : FeeHistory) (b : ℕ) (c0 c1 c2 : List ℕ)
    (hbase : h.baseFeePerGas.getLast? = some b)
    (hc0 : rewardColumn 0 h.reward = .ok c0)
    (hc1 : rewardColumn 1 h.reward = .ok c1)
    (hc2 : rewardColumn 2 h.reward = .ok c2)
    (hne : h.reward ≠ []) :
    get_gas_prices_eip1559 now h =
      .ok { source := GAS_SOURCE, timestamp := now,
            eip1559 := some {
              fast := { max_fee := b + c0.sum / c0.length, base_fee := b,
                        max_priority_fee := c0.sum / c0.length },
              instant := { max_fee := b + c1.sum / c1.length, base_fee := b,
                           max_priority_fee := c1.sum / c1.length },
              overkill := { max_fee := b + c2.sum / c2.length, base_fee := b,
                            max_priority_fee := c2.sum / c2.length } } } := by
  have hlen0 : c0 ≠ [] := by
    intro hnil
    apply hne
    have := rewardColumn_length hc0
    rw [hnil] at this
    exact List.length_eq_zero.mp this.symm
  have hlen1 : c1 ≠ [] := by
    intro hnil
    apply hne
    have := rewardColumn_length hc1
    rw [hnil] at this
    exact List.length_eq_zero.mp this.symm
  have hlen2 : c2 ≠ [] := by
    intro hnil
    apply hne
    have := rewardColumn_length hc2
    rw [hnil] at this
    exact List.length_eq_zero.mp this.symm
  unfold get_gas_prices_eip1559
  rw [hbase, hc0, hc1, hc2]
  simp only [intMean_of_ne_nil hlen0, intMean_of_ne_nil hlen1, intMean_of_ne_nil hlen2]

/-- C3 (amended): for an EIP-1559 chain the gas service consumes
`feeHistory(4, 'latest', [60, 75, 90])`, returns base fee
`baseFeePerGas[-1]`, per-tier priority the arithmetic mean of the tier's
percentile column truncated to an integer (`int(mean(...))`), and
`maxFee = baseFee + priority`; for a legacy chain it returns the chain's
`gasPrice` in all three legacy tiers. -/
theorem claim_C3_gas_report (now gp : ℕ) (h : FeeHistory) (b : ℕ)
    (c0 c1 c2 : List ℕ)
    (hbase : h.baseFeePerGas.getLast? = some b)
    (hc0 : rewardColumn 0 h.reward = .ok c0)
    (hc1 : rewardColumn 1 h.reward = .ok c1)
    (hc2 : rewardColumn 2 h.reward = .ok c2)
    (hne : h.reward ≠ []) :
    get_gas_prices true now h gp =
      .ok { source := GAS_SOURCE, timestamp := now,
            eip1559 := some {
              fast := { max_fee := b + c0.sum / c0.length, base_fee := b,
                        max_priority_fee := c0.sum / c0.length },
              instant := { max_fee := b + c1.sum / c1.length, base_fee := b,
                           max_priority_fee := c1.sum / c1.length },
              overkill := { max_fee := b + c2.sum / c2.length, base_fee := b,
                            max_priority_fee := c2.sum / c2.length } } } ∧
    get_gas_prices false now h gp =
      .ok { source := GAS_SOURCE, timestamp := now,
            legacy := some { fast := gp, instant := gp, overkill := gp } } ∧
    feeHistoryCallArgs =
      { blockCount := 4, newestBlock := "latest", rewardPercentiles := [60, 75, 90] } :=
  ⟨gas_eip1559_ok now h b c0 c1 c2 hbase hc0 hc1 hc2 hne, rfl, rfl⟩

/-- C3 witness: the spec's own end-to-end gas scenario
(`baseFeePerGas = [10,20,30,40,50]`, four reward rows `[1,2,3]`). -/
theorem claim_C3_gas_report_witness :
    get_gas_prices true 7 { reward := [[1, 2, 3], [1, 2, 3], [1, 2, 3], [1, 2, 3]],
                            baseFeePerGas := [10, 20, 30, 40, 50] } 9 =
      .ok { source := "DEXGURU", timestamp := 7,
            eip1559 := some {
              fast := { max_fee := 51, base_fee := 50, max_priority_fee := 1 },
              instant := { max_fee := 52, base_fee := 50, max_priority_fee := 2 },
              overkill := { max_fee := 53, base_fee := 50, max_priority_fee := 3 } } } ∧
    get_gas_prices false 7 { reward := [[1, 2, 3], [1, 2, 3], [1, 2, 3], [1, 2, 3]],
                             baseFeePerGas := [10, 20, 30, 40, 50] } 9 =
      .ok { source := "DEXGURU", timestamp := 7,
            legacy := some { fast := 9, instant := 9, overkill := 9 } } ∧
    feeHistoryCallArgs =
      { blockCount := 4, newestBlock := "latest", rewardPercentiles := [60, 75, 90] } :=
  claim_C3_gas_report 7 9
    { reward := [[1, 2, 3], [1, 2, 3], [1, 2, 3], [1, 2, 3]],
      baseFeePerGas := [10, 20, 30, 40, 50] }
    50 [1, 1, 1, 1] [2, 2, 2, 2] [3, 3, 3, 3] rfl rfl rfl rfl (by decide)

/-- C3 counterexample to the claim as stated: when the 60th-percentile
rewards are `[1, 2, 1, 2]` their arithmetic mean is `3/2`, but the code's
`int(mean(...))` emits priority `1` — the emitted priority does not equal
the arithmetic mean. -/
theorem claim_C3_counterexample :
    get_gas_prices true 0
        { reward := [[1, 1, 1], [2, 2, 2], [1, 1, 1], [2, 2, 2]],
          baseFeePerGas := [10, 20, 30, 40, 50] } 0 =
      .ok { source := "DEXGURU", timestamp := 0,
            eip1559 := some {
              fast := { max_fee := 51, base_fee := 50, max_priority_fee := 1 },
              instant := { max_fee := 51, base_fee := 50, max_priority_fee := 1 },
              overkill := { max_fee := 51, base_fee := 50, max_priority_fee := 1 } } } ∧
    exactMean [1, 2, 1, 2] = 3 / 2 ∧ ((1 : ℚ) = 3 / 2 → False) := by
  refine ⟨rfl, ?_, by norm_num⟩
  norm_num [exactMean]

/-- C7 (amended): with fewer than four (but at least one) reward rows the
EIP-1559 path still returns all three tiers, computed over the rows that
exist; with zero reward rows it raises `StatisticsError` (from `mean([])`)
instead of falling back to the legacy `gasPrice()` path. -/
theorem claim_C7_short_fee_history (now gp : ℕ) :
    (∀ (h : FeeHistory) (b : ℕ) (c0 c1 c2 : List ℕ),
      h.baseFeePerGas.getLast? = some b →
      rewardColumn 0 h.reward = .ok c0 →
      rewardColumn 1 h.reward = .ok c1 →
      rewardColumn 2 h.reward = .ok c2 →
      h.reward ≠ [] → h.reward.length < 4 →
      get_gas_prices true now h gp =
        .ok { source := GAS_SOURCE, timestamp := now,
              eip1559 := some {
                fast := { max_fee := b + c0.sum / c0.length, base_fee := b,
                          max_priority_fee := c0.sum / c0.length },
                instant := { max_fee := b + c1.sum / c1.length, base_fee := b,
                             max_priority_fee := c1.sum / c1.length },
                overkill := { max_fee := b + c2.sum / c2.length, base_fee := b,
                              max_priority_fee := c2.sum / c2.length } } }) ∧
    (∀ (h : FeeHistory) (b : ℕ),
      h.reward = [] → h.baseFeePerGas.getLast? = some b →
      get_gas_prices true now h gp = .error .statisticsError) := by
  constructor
  · intro h b c0 c1 c2 hbase hc0 hc1 hc2 hne _
    exact gas_eip1559_ok now h b c0 c1 c2 hbase hc0 hc1 hc2 hne
  · intro h b hrw hbase
    unfold get_gas_prices get_gas_prices_eip1559
    rw [if_pos rfl, hbase, hrw]
    rfl

/-- C7 witness: a one-row history still yields all three tiers; an
empty-reward history raises `StatisticsError`. -/
theorem claim_C7_short_fee_history_witness :
    get_gas_prices true 0 { reward := [[5, 6, 7]], baseFeePerGas := [50] } 9 =
      .ok { source := "DEXGURU", timestamp := 0,
            eip1559 := some {
              fast := { max_fee := 55, base_fee := 50, max_priority_fee := 5 },
              instant := { max_fee := 56, base_fee := 50, max_priority_fee := 6 },
              overkill := { max_fee := 57, base_fee := 50, max_priority_fee := 7 } } } ∧
    get_gas_prices true 0 { reward := [], baseFeePerGas := [50] } 9 =
      .error .statisticsError := by
  have h := claim_C7_short_fee_history 0 9
  exact ⟨h.1 { reward := [[5, 6, 7]], baseFeePerGas := [50] } 50 [5] [6] [7]
      rfl rfl rfl rfl (by decide) (by decide),
    h.2 { reward := [], baseFeePerGas := [50] } 50 rfl rfl⟩

/-- C7 counterexample to the claim as stated: on an empty reward table the
gas service does not fall back to the legacy `gasPrice()` result — it fails
with `StatisticsError`. -/
theorem claim_C7_counterexample :
    get_gas_prices true 0 { reward := [], baseFeePerGas := [50] } 7 =
      .error .statisticsError ∧
    get_gas_prices true 0 { reward := [], baseFeePerGas := [50] } 7 ≠
      .ok (get_gas_prices_legacy 0 7) := by
  constructor
  · rfl
  · intro hcontra
    have heq : (Except.error PyExc.statisticsError : Except PyExc GasResponse) =
        .ok (get_gas_prices_legacy 0 7) := hcontra
    exact Except.noConfusion heq

/-! ## Dict lemmas -/

lemma any_key_eq_true_iff {α : Type} (d : List (String × α)) (k : String) :
    d.any (fun kv => kv.1 = k) = true ↔ k ∈ d.map Prod.fst := by
  rw [List.any_eq_true]
  constructor
  · rintro ⟨x, hx, hxk⟩
    have hx1 : x.1 = k := by simpa using hxk
    exact hx1 ▸ List.mem_map_of_mem Prod.fst hx
  · intro hk
    obtain ⟨x, hx, hxk⟩ := List.mem_map.mp hk
    exact ⟨x, hx, by simpa using hxk⟩

lemma dictInsert_keys_of_any_true {α : Type} {d : List (String × α)} {k : String}
    (v : α) (h : d.any (fun kv => kv.1 = k) = true) :
    (dictInsert d k v).map Prod.fst = d.map Prod.fst := by
  unfold dictInsert
  rw [if_pos h, List.map_map]
  apply List.map_congr_left
  intro kv _
  by_cases hk : kv.1 = k
  · simp [hk]
  · simp [hk]

lemma dictInsert_keys_of_any_false {α : Type} {d : List (String × α)} {k : String}
    (v : α) (h : d.any (fun kv => kv.1 = k) = false) :
    (dictInsert d k v).map Prod.fst = d.map Prod.fst ++ [k] := by
  unfold dictInsert
  rw [if_neg (by simp [h]), List.map_append]
  simp

lemma dictInsert_nodupKeys {α : Type} {d : List (String × α)} {k : String} {v : α}
    (h : (d.map Prod.fst).Nodup) : ((dictInsert d k v).map Prod.fst).Nodup := by
  cases hany : d.any (fun kv => kv.1 = k) with
  | true => rw [dictInsert_keys_of_any_true v hany]; exact h
  | false =>
    rw [dictInsert_keys_of_any_false v hany]
    have hk : k ∉ d.map Prod.fst := by
      rw [← any_key_eq_true_iff]
      simp [hany]
    simp [List.nodup_append, h, hk]

lemma dictOfPairs_nodupKeys {α : Type} (ps : List (String × α)) :
    ((dictOfPairs ps).map Prod.fst).Nodup := by
  suffices haux : ∀ (qs : List (String × α)) (acc : List (String × α)),
      (acc.map Prod.fst).Nodup →
      ((qs.foldl (fun d kv => dictInsert d kv.1 kv.2) acc).map Prod.fst).Nodup by
    exact haux ps [] (by simp)
  intro qs
  induction qs with
  | nil => intro acc h; exact h
  | cons p rest ih => intro acc h; exact ih _ (dictInsert_nodupKeys h)

lemma foldl_dictInsert_of_nodup {α : Type} :
    ∀ (ps acc : List (String × α)), (((acc ++ ps).map Prod.fst)).Nodup →
      ps.foldl (fun d kv => dictInsert d kv.1 kv.2) acc = acc ++ ps := by
  intro ps
  induction ps with
  | nil => intro acc _; simp
  | cons p rest ih =>
    intro acc h
    have hnotin : p.1 ∉ acc.map Prod.fst := by
      rw [List.map_append, List.nodup_append] at h
      intro hmem
      exact h.2.2 hmem (by simp)
    have hany : acc.any (fun kv => kv.1 = p.1) = false := by
      rw [← Bool.not_eq_true, any_key_eq_true_iff]
      exact hnotin
    have hins : dictInsert acc p.1 p.2 = acc ++ [p] := by
      unfold dictInsert
      rw [if_neg (by simp [hany])]
    rw [List.foldl_cons]
    show rest.foldl _ (dictInsert acc p.1 p.2) = _
    rw [hins, ih (acc ++ [p]) (by simpa using h)]
    simp

lemma dictOfPairs_of_nodupKeys {α : Type} (ps : List (String × α))
    (h : (ps.map Prod.fst).Nodup) : dictOfPairs ps = ps := by
  simpa using foldl_dictInsert_of_nodup ps [] (by simpa using h)

lemma dictInsert_forall_values {α : Type} {P : α → Prop} {d : List (String × α)}
    {k : String} {v : α} (hd : ∀ kv ∈ d, P kv.2) (hv : P v) :
    ∀ kv ∈ dictInsert d k v, P kv.2 := by
  intro kv hkv
  unfold dictInsert at hkv
  by_cases hany : d.any (fun kv => kv.1 = k) = true
  · rw [if_pos hany] at hkv
    obtain ⟨x, hx, hxkv⟩ := List.mem_map.mp hkv
    by_cases hxk : x.1 = k
    · rw [if_pos hxk] at hxkv
      rw [← hxkv]
      exact hv
    · rw [if_neg hxk] at hxkv
      rw [← hxkv]
      exact hd x hx
  · rw [if_neg hany] at hkv
    rcases List.mem_append.mp hkv with h1 | h2
    · exact hd kv h1
    · have : kv = (k, v) := by simpa using h2
      rw [this]
      exact hv

/-! ## `choose_best_provider` picks the first strict maximum -/

section ChooseBest

variable (ac : String → ℕ) (nd bd : ℕ) (btp : ℚ)

lemma bestStep_some (a : String × ProviderPriceResponse × ℚ)
    (e : String × ProviderPriceResponse) :
    bestStep ac nd bd btp (some a) e =
      if a.2.2 < entryProfit ac nd bd btp e then
        some (e.1, e.2, entryProfit ac nd bd btp e)
      else some a := rfl

lemma pickBest_cons (a : String × ProviderPriceResponse × ℚ)
    (e : String × ProviderPriceResponse) (rest : List (String × ProviderPriceResponse)) :
    pickBest ac nd bd btp a (e :: rest) =
      if a.2.2 < entryProfit ac nd bd btp e then
        pickBest ac nd bd btp (e.1, e.2, entryProfit ac nd bd btp e) rest
      else pickBest ac nd bd btp a rest := rfl

lemma foldl_bestStep_some :
    ∀ (l : List (String × ProviderPriceResponse)) (a : String × ProviderPriceResponse × ℚ),
      l.foldl (bestStep ac nd bd btp) (some a) = some (pickBest ac nd bd btp a l) := by
  intro l
  induction l with
  | nil => intro a; rfl
  | cons e rest ih =>
    intro a
    rw [List.foldl_cons, bestStep_some, pickBest_cons]
    by_cases hlt : a.2.2 < entryProfit ac nd bd btp e
    · rw [if_pos hlt, if_pos hlt, ih]
    · rw [if_neg hlt, if_neg hlt, ih]

lemma pickBest_spec :
    ∀ (l : List (String × ProviderPriceResponse)) (a : String × ProviderPriceResponse),
      ∃ e, e ∈ a :: l ∧
        pickBest ac nd bd btp (a.1, a.2, entryProfit ac nd bd btp a) l =
          (e.1, e.2, entryProfit ac nd bd btp e) ∧
        (∀ x ∈ a :: l, entryProfit ac nd bd btp x ≤ entryProfit ac nd bd btp e) ∧
        ∃ l1 l2, a :: l = l1 ++ e :: l2 ∧
          ∀ x ∈ l1, entryProfit ac nd bd btp x < entryProfit ac nd bd btp e := by
  intro l
  induction l with
  | nil =>
    intro a
    refine ⟨a, by simp, rfl, by simp, [], [], by simp, by simp⟩
  | cons b rest ih =>
    intro a
    rw [pickBest_cons]
    by_cases hlt : (a.1, a.2, entryProfit ac nd bd btp a).2.2 < entryProfit ac nd bd btp b
    · rw [if_pos hlt]
      have hab : entryProfit ac nd bd btp a < entryProfit ac nd bd btp b := hlt
      obtain ⟨e, hmem, heq, hbound, l1, l2, hsplit, hstrict⟩ := ih b
      have hbe : entryProfit ac nd bd btp b ≤ entryProfit ac nd bd btp e :=
        hbound b (by simp)
      refine ⟨e, List.mem_cons_of_mem a hmem, heq, ?_, a :: l1, l2, ?_, ?_⟩
      · intro x hx
        rcases List.mem_cons.mp hx with hxa | hx'
        · rw [hxa]
          exact le_of_lt (lt_of_lt_of_le hab hbe)
        · exact hbound x hx'
      · rw [List.cons_append, ← hsplit]
      · intro x hx
        rcases List.mem_cons.mp hx with hxa | hx'
        · rw [hxa]
          exact lt_of_lt_of_le hab hbe
        · exact hstrict x hx'
    · rw [if_neg hlt]
      have hba : entryProfit ac nd bd btp b ≤ entryProfit ac nd bd btp a :=
        le_of_not_lt hlt
      obtain ⟨e, hmem, heq, hbound, l1, l2, hsplit, hstrict⟩ := ih a
      have hae : entryProfit ac nd bd btp a ≤ entryProfit ac nd bd btp e :=
        hbound a (by simp)
      have hmem' : e ∈ a :: b :: rest := by
        rcases List.mem_cons.mp hmem with hea | he'
        · rw [hea]; simp
        · exact List.mem_cons_of_mem a (List.mem_cons_of_mem b he')
      have hbound' : ∀ x ∈ a :: b :: rest,
          entryProfit ac nd bd btp x ≤ entryProfit ac nd bd btp e := by
        intro x hx
        rcases List.mem_cons.mp hx with hxa | hx'
        · rw [hxa]; exact hae
        · rcases List.mem_cons.mp hx' with hxb | hx''
          · rw [hxb]; exact le_trans hba hae
          · exact hbound x (List.mem_cons_of_mem a hx'')
      cases l1 with
      | nil =>
        have hea : e = a := by
          have := hsplit
          simp only [List.nil_append] at this
          exact ((List.cons.injEq _ _ _ _).mp this).1.symm
        refine ⟨e, hmem', heq, hbound', [], b :: rest, by rw [hea]; simp, by simp⟩
      | cons c l1' =>
        have hca : c = a ∧ rest = l1' ++ e :: l2 := by
          have := hsplit
          simp only [List.cons_append] at this
          exact ⟨((List.cons.injEq _ _ _ _).mp this).1.symm,
            ((List.cons.injEq _ _ _ _).mp this).2⟩
        have hae' : entryProfit ac nd bd btp a < entryProfit ac nd bd btp e := by
          have := hstrict c (by simp)
          rw [hca.1] at this
          exact this
        refine ⟨e, hmem', heq, hbound', a :: b :: l1', l2, ?_, ?_⟩
        · rw [hca.2]
          simp
        · intro x hx
          rcases List.mem_cons.mp hx with hxa | hx'
          · rw [hxa]; exact hae'
          · rcases List.mem_cons.mp hx' with hxb | hx''
            · rw [hxb]; exact lt_of_le_of_lt hba hae'
            · exact hstrict x (List.mem_cons_of_mem c hx'')

lemma choose_best_provider_spec (prices : List (String × ProviderPriceResponse))
    (hne : prices ≠ []) :
    ∃ e, e ∈ prices ∧
      (choose_best_provider prices ac nd bd btp).1 = some e.1 ∧
      (∀ x ∈ prices, entryProfit ac nd bd btp x ≤ entryProfit ac nd bd btp e) ∧
      ∃ l1 l2, prices = l1 ++ e :: l2 ∧
        ∀ x ∈ l1, entryProfit ac nd bd btp x < entryProfit ac nd bd btp e := by
  cases prices with
  | nil => exact absurd rfl hne
  | cons a l =>
    obtain ⟨e, hmem, heq, hbound, l1, l2, hsplit, hstrict⟩ := pickBest_spec ac nd bd btp l a
    refine ⟨e, hmem, ?_, hbound, l1, l2, hsplit, hstrict⟩
    unfold choose_best_provider
    rw [List.foldl_cons]
    rw [show bestStep ac nd bd btp none a =
      some (a.1, a.2, entryProfit ac nd bd btp a) from rfl]
    rw [foldl_bestStep_some, heq]

end ChooseBest

lemma metaProfit_mkMetaPrice (ac : String → ℕ) (best : Option String)
    (nd bd : ℕ) (btp : ℚ) (x : String × ProviderPriceResponse) :
    metaProfit nd bd btp (mkMetaPrice ac best x) = entryProfit ac nd bd btp x := rfl

lemma get_swap_meta_price_ok {outcomes : List (String × Except PyExc ProviderPriceResponse)}
    {ac : String → ℕ} {nd bd : ℕ} {btp : ℚ} {l : List MetaPriceModel}
    (h : get_swap_meta_price outcomes ac nd bd btp = .ok l) :
    (successPrices outcomes).all (fun kv => kv.1 = "") = false ∧
    l = (successPrices outcomes).map
      (mkMetaPrice ac ((choose_best_provider (successPrices outcomes) ac nd bd btp).1)) := by
  unfold get_swap_meta_price at h
  cases hall : (successPrices outcomes).all (fun kv => kv.1 = "") with
  | true =>
    simp only [hall] at h
    cases h
  | false =>
    simp only [hall] at h
    simp only [Bool.false_eq_true, if_false] at h
    exact ⟨rfl, (Except.ok.inj h).symm⟩

/-! ## Decimal-context rounding lemmas -/

lemma roundHalfEven_intCast (m : ℤ) : roundHalfEven (m : ℚ) = m := by
  unfold roundHalfEven
  norm_num

lemma roundHalfEven_of_lt_half {x : ℚ} {n : ℤ} (h1 : (n : ℚ) ≤ x)
    (h2 : x < (n : ℚ) + 1 / 2) : roundHalfEven x = n := by
  have hfl : ⌊x⌋ = n := Int.floor_eq_iff.mpr ⟨h1, by linarith⟩
  simp only [roundHalfEven, hfl]
  rw [if_pos (by linarith)]

lemma int_log_eq_of_bounds {q : ℚ} {b : ℕ} (hq : 0 < q)
    (h1 : (10 : ℚ) ^ b ≤ q) (h2 : q < (10 : ℚ) ^ (b + 1)) :
    Int.log 10 q = (b : ℤ) := by
  have h10 : (1 : ℕ) < 10 := by norm_num
  have hle : (b : ℤ) ≤ Int.log 10 q := by
    apply (Int.zpow_le_iff_le_log h10 hq).mp
    rw [zpow_natCast]
    exact_mod_cast h1
  have hlt : Int.log 10 q < (b : ℤ) + 1 := by
    apply (Int.lt_zpow_iff_log_lt h10 hq).mp
    rw [show ((b : ℤ) + 1) = ((b + 1 : ℕ) : ℤ) by push_cast; ring, zpow_natCast]
    exact_mod_cast h2
  omega

lemma decimalRound28_zero : decimalRound28 0 = 0 := by
  simp [decimalRound28]

lemma decimalRound28_intCast (m : ℤ) (hm : |m| < 10 ^ 28) :
    decimalRound28 (m : ℚ) = m := by
  by_cases h0 : m = 0
  · subst h0
    simp [decimalRound28]
  · have h0q : (m : ℚ) ≠ 0 := Int.cast_ne_zero.mpr h0
    simp only [decimalRound28]
    rw [if_neg h0q]
    set a := Int.log 10 |(m : ℚ)| with ha
    have hlog_lt : a < 28 := by
      rw [ha]
      apply (Int.lt_zpow_iff_log_lt (by norm_num) (abs_pos.mpr h0q)).mp
      rw [show (28 : ℤ) = ((28 : ℕ) : ℤ) by norm_num, zpow_natCast]
      rw [← Int.cast_abs]
      exact_mod_cast hm
    obtain ⟨k, hk⟩ : ∃ k : ℕ, (27 : ℤ) - a = (k : ℤ) := ⟨(27 - a).toNat, by omega⟩
    have hpow : (10 : ℚ) ^ (a - 27) = ((10 : ℚ) ^ k)⁻¹ := by
      rw [show a - 27 = -(k : ℤ) by omega, zpow_neg, zpow_natCast]
    have hdiv : (m : ℚ) / (10 : ℚ) ^ (a - 27) = ((m * 10 ^ k : ℤ) : ℚ) := by
      rw [hpow, div_eq_mul_inv, inv_inv]
      push_cast
      ring
    rw [hdiv, roundHalfEven_intCast, hpow]
    push_cast
    rw [mul_assoc, mul_inv_cancel₀ (by positivity), mul_one]

lemma decimalRound28_round_down (q : ℚ) (b : ℕ) (n : ℤ) (_hb : b ≤ 27)
    (hq : 0 < q) (h1 : (10 : ℚ) ^ b ≤ q) (h2 : q < (10 : ℚ) ^ (b + 1))
    (hfl : (n : ℚ) ≤ q * (10 : ℚ) ^ (27 - b))
    (hfr : q * (10 : ℚ) ^ (27 - b) < (n : ℚ) + 1 / 2) :
    decimalRound28 q = (n : ℚ) / (10 : ℚ) ^ (27 - b) := by
  have hlog : Int.log 10 |q| = (b : ℤ) := by
    rw [abs_of_pos hq]
    exact int_log_eq_of_bounds hq h1 h2
  simp only [decimalRound28]
  rw [if_neg (ne_of_gt hq), hlog]
  have hpow : (10 : ℚ) ^ ((b : ℤ) - 27) = ((10 : ℚ) ^ (27 - b))⁻¹ := by
    rw [show (b : ℤ) - 27 = -(((27 - b : ℕ)) : ℤ) by omega, zpow_neg, zpow_natCast]
  have hdivq : q / (10 : ℚ) ^ ((b : ℤ) - 27) = q * (10 : ℚ) ^ (27 - b) := by
    rw [hpow, div_eq_mul_inv, inv_inv]
  rw [hdivq, roundHalfEven_of_lt_half hfl hfr, hpow, div_eq_mul_inv]

/-- C1 (amended): on every `get_swap_meta_price` result of length ≥ 2,
exactly one element has `is_best = true`; it is a maximum element of the
profit AS THE CODE COMPUTES IT — Python `Decimal` default-context
arithmetic, every operation rounded to 28 significant digits half-even —
and every element listed before it has strictly smaller Decimal profit:
ties under the Decimal comparison go to the earliest entry in the fan-out
iteration order, which the output list preserves. -/
theorem claim_C1_best_provider
    (outcomes : List (String × Except PyExc ProviderPriceResponse))
    (approve_costs : String → ℕ) (native_decimals buy_token_decimals : ℕ)
    (buy_token_price : ℚ) (l : List MetaPriceModel)
    (h : get_swap_meta_price outcomes approve_costs native_decimals
      buy_token_decimals buy_token_price = .ok l)
    (_hlen : 2 ≤ l.length) :
    (l.filter (fun m => m.is_best = some true)).length = 1 ∧
    ∃ l1 w l2, l = l1 ++ w :: l2 ∧ w.is_best = some true ∧
      (∀ m ∈ l, metaProfit native_decimals buy_token_decimals buy_token_price m ≤
        metaProfit native_decimals buy_token_decimals buy_token_price w) ∧
      (∀ m ∈ l1, metaProfit native_decimals buy_token_decimals buy_token_price m <
        metaProfit native_decimals buy_token_decimals buy_token_price w) := by
  obtain ⟨hall, hl⟩ := get_swap_meta_price_ok h
  have hPne : successPrices outcomes ≠ [] := by
    intro h0
    rw [h0] at hall
    simp at hall
  obtain ⟨e, hmem, hbestfst, hbound, p1, p2, hsplit, hstrict⟩ :=
    choose_best_provider_spec approve_costs native_decimals buy_token_decimals
      buy_token_price (successPrices outcomes) hPne
  have hkeys : ((successPrices outcomes).map Prod.fst).Nodup := by
    unfold successPrices
    exact dictOfPairs_nodupKeys _
  rw [hsplit] at hkeys
  rw [List.map_append, List.nodup_append] at hkeys
  have hnot1 : e.1 ∉ p1.map Prod.fst := by
    intro hmem1
    exact hkeys.2.2 hmem1 (by simp)
  have hnot2 : e.1 ∉ p2.map Prod.fst := by
    have := hkeys.2.1
    simp only [List.map_cons, List.nodup_cons] at this
    exact this.1
  set best := (choose_best_provider (successPrices outcomes) approve_costs
    native_decimals buy_token_decimals buy_token_price).1 with hbestdef
  have hlsplit : l = p1.map (mkMetaPrice approve_costs best) ++
      mkMetaPrice approve_costs best e :: p2.map (mkMetaPrice approve_costs best) := by
    rw [hl, hsplit]
    simp
  have hbest_e : (mkMetaPrice approve_costs best e).is_best = some true := by
    simp [mkMetaPrice, hbestfst]
  have hbest_ne : ∀ x : String × ProviderPriceResponse, x.1 ≠ e.1 →
      (mkMetaPrice approve_costs best x).is_best = some false := by
    intro x hx
    simp only [mkMetaPrice, hbestfst, Option.some.injEq, decide_eq_false_iff_not]
    exact fun h' => hx h'.symm
  have hne1 : ∀ x ∈ p1, x.1 ≠ e.1 := by
    intro x hx hx1
    exact hnot1 (hx1 ▸ List.mem_map_of_mem Prod.fst hx)
  have hne2 : ∀ x ∈ p2, x.1 ≠ e.1 := by
    intro x hx hx1
    exact hnot2 (hx1 ▸ List.mem_map_of_mem Prod.fst hx)
  constructor
  · rw [hlsplit, List.filter_append, List.filter_cons]
    have hf1 : (p1.map (mkMetaPrice approve_costs best)).filter
        (fun m => m.is_best = some true) = [] := by
      rw [List.filter_eq_nil_iff]
      intro m hm
      obtain ⟨x, hx, hxm⟩ := List.mem_map.mp hm
      rw [← hxm]
      simp [hbest_ne x (hne1 x hx)]
    have hf2 : (p2.map (mkMetaPrice approve_costs best)).filter
        (fun m => m.is_best = some true) = [] := by
      rw [List.filter_eq_nil_iff]
      intro m hm
      obtain ⟨x, hx, hxm⟩ := List.mem_map.mp hm
      rw [← hxm]
      simp [hbest_ne x (hne2 x hx)]
    rw [hf1, hf2]
    simp [hbest_e]
  · refine ⟨p1.map (mkMetaPrice approve_costs best), mkMetaPrice approve_costs best e,
      p2.map (mkMetaPrice approve_costs best), hlsplit, hbest_e, ?_, ?_⟩
    · intro m hm
      rw [hl] at hm
      obtain ⟨x, hx, hxm⟩ := List.mem_map.mp hm
      rw [← hxm, metaProfit_mkMetaPrice, metaProfit_mkMetaPrice]
      exact hbound x hx
    · intro m hm
      obtain ⟨x, hx, hxm⟩ := List.mem_map.mp hm
      rw [← hxm, metaProfit_mkMetaPrice, metaProfit_mkMetaPrice]
      exact hstrict x hx

/-- C1 witness: a concrete two-provider run; the second provider has the
higher profit and carries `is_best`. -/
theorem claim_C1_best_provider_witness :
    get_swap_meta_price c1Outcomes (fun _ => 0) 0 0 1 = .ok c1MetaList ∧
    ((c1MetaList.filter (fun m => m.is_best = some true)).length = 1 ∧
      ∃ l1 w l2, c1MetaList = l1 ++ w :: l2 ∧ w.is_best = some true ∧
        (∀ m ∈ c1MetaList, metaProfit 0 0 1 m ≤ metaProfit 0 0 1 w) ∧
        (∀ m ∈ l1, metaProfit 0 0 1 m < metaProfit 0 0 1 w)) := by
  have d0 : decimalRound28 (0 : ℚ) = 0 := decimalRound28_zero
  have d1 : decimalRound28 (1 : ℚ) = 1 := by
    exact_mod_cast decimalRound28_intCast 1 (by norm_num)
  have d99 : decimalRound28 (99 : ℚ) = 99 := by
    exact_mod_cast decimalRound28_intCast 99 (by norm_num)
  have d100 : decimalRound28 (100 : ℚ) = 100 := by
    exact_mod_cast decimalRound28_intCast 100 (by norm_num)
  have d199 : decimalRound28 (199 : ℚ) = 199 := by
    exact_mod_cast decimalRound28_intCast 199 (by norm_num)
  have d200 : decimalRound28 (200 : ℚ) = 200 := by
    exact_mod_cast decimalRound28_intCast 200 (by norm_num)
  have hq1 : profitOf c1Resp1 0 0 0 1 = 99 := by
    norm_num [profitOf, c1Resp1, d0, d1, d99, d100]
  have hq2 : profitOf c1Resp2 0 0 0 1 = 199 := by
    norm_num [profitOf, c1Resp2, d0, d1, d199, d200]
  have hok : get_swap_meta_price c1Outcomes (fun _ => 0) 0 0 1 = .ok c1MetaList := by
    have hs1 : ("zero_x" = "one_inch") = False := by simp
    have hs2 : ("one_inch" = "zero_x") = False := by simp
    have hs3 : ("one_inch" = "") = False := by simp
    have hs4 : ("zero_x" = "") = False := by simp
    have hpr1 : c1Resp1.provider = "one_inch" := rfl
    have hpr2 : c1Resp2.provider = "zero_x" := rfl
    norm_num [get_swap_meta_price, successPrices, dictOfPairs, dictInsert,
      choose_best_provider, bestStep, mkMetaPrice, c1Outcomes, c1MetaList,
      Except.toOption, List.foldl, List.filterMap, List.map, List.any, List.all,
      hs1, hs2, hs3, hs4, hpr1, hpr2, hq1, hq2]
  exact ⟨hok, claim_C1_best_provider c1Outcomes (fun _ => 0) 0 0 1 c1MetaList hok
    (by decide)⟩

lemma c1cex_round1 : decimalRound28 ((100000000000000000000000000001 : ℚ) /
    1000000000000000000) = 100000000000 := by
  have h := decimalRound28_round_down
    ((100000000000000000000000000001 : ℚ) / 1000000000000000000) 11 (10 ^ 27)
    (by norm_num)
    (by positivity)
    (by rw [le_div_iff₀ (by positivity)]; norm_num)
    (by rw [div_lt_iff₀ (by positivity)]; norm_num)
    (by rw [div_mul_eq_mul_div, le_div_iff₀ (by positivity)]; push_cast; norm_num)
    (by rw [div_mul_eq_mul_div, div_lt_iff₀ (by positivity)]; push_cast; norm_num)
  rw [h]
  push_cast
  norm_num

lemma c1cex_round2 : decimalRound28 ((50000000000000000000000000001 : ℚ) /
    500000000000000000) = 100000000000 := by
  have h := decimalRound28_round_down
    ((50000000000000000000000000001 : ℚ) / 500000000000000000) 11 (10 ^ 27)
    (by norm_num)
    (by positivity)
    (by rw [le_div_iff₀ (by positivity)]; norm_num)
    (by rw [div_lt_iff₀ (by positivity)]; norm_num)
    (by rw [div_mul_eq_mul_div, le_div_iff₀ (by positivity)]; push_cast; norm_num)
    (by rw [div_mul_eq_mul_div, div_lt_iff₀ (by positivity)]; push_cast; norm_num)
  rw [h]
  push_cast
  norm_num

lemma c1cex_big : decimalRound28 ((100000000000 : ℚ)) = 100000000000 := by
  exact_mod_cast decimalRound28_intCast 100000000000 (by norm_num)

lemma c1cex_profit1 : profitOf c1CexResp1 0 18 18 1 = 100000000000 := by
  norm_num [profitOf, c1CexResp1, decimalRound28_zero, c1cex_round1, c1cex_big]

lemma c1cex_profit2 : profitOf c1CexResp2 0 18 18 1 = 100000000000 := by
  norm_num [profitOf, c1CexResp2, decimalRound28_zero, c1cex_round2, c1cex_big]

lemma c1cex_step1 : bestStep (fun _ => 0) 18 18 1 none ("one_inch", c1CexResp1) =
    some ("one_inch", c1CexResp1, (100000000000 : ℚ)) := by
  norm_num [bestStep, c1cex_profit1]

lemma c1cex_step2 :
    bestStep (fun _ => 0) 18 18 1 (some ("one_inch", c1CexResp1, (100000000000 : ℚ)))
      ("zero_x", c1CexResp2) = some ("one_inch", c1CexResp1, (100000000000 : ℚ)) := by
  norm_num [bestStep, c1cex_profit2]

lemma c1cex_fold : List.foldl (bestStep (fun _ => 0) 18 18 1) none
    [("one_inch", c1CexResp1), ("zero_x", c1CexResp2)] =
    some ("one_inch", c1CexResp1, (100000000000 : ℚ)) := by
  rw [List.foldl_cons, c1cex_step1, List.foldl_cons, c1cex_step2, List.foldl_nil]

lemma choose_best_eq (prices : List (String × ProviderPriceResponse))
    (ac : String → ℕ) (nd bd : ℕ) (btp : ℚ) (w : String × ProviderPriceResponse × ℚ)
    (h : prices.foldl (bestStep ac nd bd btp) none = some w) :
    choose_best_provider prices ac nd bd btp = (some w.1, some w.2.1) := by
  unfold choose_best_provider
  rw [h]

lemma c1cex_best :
    choose_best_provider [("one_inch", c1CexResp1), ("zero_x", c1CexResp2)]
      (fun _ => 0) 18 18 1 = (some "one_inch", some c1CexResp1) :=
  choose_best_eq _ _ _ _ _ _ c1cex_fold

lemma c1cex_map : (Except.ok ([("one_inch", c1CexResp1), ("zero_x", c1CexResp2)].map
    (mkMetaPrice (fun _ => 0) (some "one_inch"))) : Except PyExc (List MetaPriceModel)) =
    .ok c1CexMetaList := rfl

lemma c1cex_meta :
    get_swap_meta_price c1CexOutcomes (fun _ => 0) 18 18 1 = .ok c1CexMetaList := by
  have h0 : successPrices c1CexOutcomes =
      [("one_inch", c1CexResp1), ("zero_x", c1CexResp2)] := rfl
  simp only [get_swap_meta_price, h0]
  rw [if_neg (by decide), c1cex_best]
  exact c1cex_map

lemma c1cex_exact :
    exactProfit c1CexResp1 0 18 18 1 < exactProfit c1CexResp2 0 18 18 1 := by
  norm_num [exactProfit, c1CexResp1, c1CexResp2]

/-- C1 counterexample to the claim as stated: with buy amounts `10^29 + 1`
and `10^29 + 2` (30 significant digits, 18-decimals token, zero costs),
the code's Decimal division rounds both humanized amounts to 28 digits and
both profits become `10^11`, so the tie keeps the FIRST provider — yet the
exact profit of the claim's formula is strictly larger for the second, so
the `is_best` element does not have maximal exact profit. -/
theorem claim_C1_counterexample :
    get_swap_meta_price c1CexOutcomes (fun _ => 0) 18 18 1 = .ok c1CexMetaList ∧
    c1CexMetaList.map (fun m => m.is_best) = [some true, some false] ∧
    exactProfit c1CexResp1 0 18 18 1 < exactProfit c1CexResp2 0 18 18 1 :=
  ⟨c1cex_meta, rfl, c1cex_exact⟩

/-! ## C2: partial-failure semantics -/

lemma successPairs_keys :
    ∀ (outcomes : List (String × Except PyExc ProviderPriceResponse)),
      (∀ po ∈ outcomes, ∀ r, po.2 = Except.ok r → r.provider = po.1) →
      (((outcomes.map Prod.snd).filterMap Except.toOption).map
          (fun price => (price.provider, price))).map Prod.fst =
        (outcomes.filter (fun po => po.2.toOption.isSome)).map Prod.fst := by
  intro outcomes
  induction outcomes with
  | nil => intro _; rfl
  | cons po rest ih =>
    intro hnames
    have hrest := fun q hq => hnames q (List.mem_cons_of_mem po hq)
    cases hpo : po.2 with
    | ok r =>
      have hn : r.provider = po.1 := hnames po (by simp) r hpo
      rw [List.map_cons, List.filterMap_cons, hpo]
      rw [List.filter_cons_of_pos (by rw [hpo]; rfl)]
      simp only [Except.toOption, List.map_cons, hn, ih hrest]
    | error e =>
      rw [List.map_cons, List.filterMap_cons, hpo]
      rw [List.filter_cons_of_neg (by rw [hpo]; simp [Except.toOption])]
      simp only [Except.toOption, ih hrest]

lemma successPrices_eq_of_nodup
    (outcomes : List (String × Except PyExc ProviderPriceResponse))
    (hnames : ∀ po ∈ outcomes, ∀ r, po.2 = Except.ok r → r.provider = po.1)
    (hnodup : (outcomes.map Prod.fst).Nodup) :
    successPrices outcomes =
      ((outcomes.map Prod.snd).filterMap Except.toOption).map
        (fun price => (price.provider, price)) := by
  unfold successPrices
  apply dictOfPairs_of_nodupKeys
  rw [successPairs_keys outcomes hnames]
  exact hnodup.sublist ((List.filter_sublist _).map Prod.fst)

/-- C2 (amended): `get_swap_meta_price` treats provider failures as
values — with at least one success it returns exactly one `MetaPrice` per
succeeding provider (the provider set minus the failing subset, in fan-out
order); with no successes it raises the plain builtin
`ValueError('No prices found')`, not the typed provider-owned
`ProviderUnspecified` (HTTP 409) error. -/
theorem claim_C2_partial_failure
    (outcomes : List (String × Except PyExc ProviderPriceResponse))
    (ac : String → ℕ) (nd bd : ℕ) (btp : ℚ)
    (hnames : ∀ po ∈ outcomes, ∀ r, po.2 = Except.ok r → r.provider = po.1)
    (hnodup : (outcomes.map Prod.fst).Nodup)
    (hne : ∀ po ∈ outcomes, po.1 ≠ "") :
    ((∃ po ∈ outcomes, po.2.toOption.isSome = true) →
      ∃ l, get_swap_meta_price outcomes ac nd bd btp = .ok l ∧
        l.map (fun m => m.provider) =
          (outcomes.filter (fun po => po.2.toOption.isSome)).map Prod.fst) ∧
    ((∀ po ∈ outcomes, po.2.toOption.isSome = false) →
      get_swap_meta_price outcomes ac nd bd btp =
        .error (.valueError "No prices found")) := by
  constructor
  · rintro ⟨po, hpo, hsucc⟩
    have hprices := successPrices_eq_of_nodup outcomes hnames hnodup
    have hkeys : (successPrices outcomes).map Prod.fst =
        (outcomes.filter (fun po => po.2.toOption.isSome)).map Prod.fst := by
      rw [hprices, successPairs_keys outcomes hnames]
    have hmemname : po.1 ∈ (successPrices outcomes).map Prod.fst := by
      rw [hkeys]
      exact List.mem_map_of_mem Prod.fst (List.mem_filter.mpr ⟨hpo, hsucc⟩)
    have hall : (successPrices outcomes).all (fun kv => kv.1 = "") = false := by
      cases h : (successPrices outcomes).all (fun kv => kv.1 = "") with
      | false => rfl
      | true =>
        exfalso
        obtain ⟨kv, hkv, hkv1⟩ := List.mem_map.mp hmemname
        have := List.all_eq_true.mp h kv hkv
        exact hne po hpo (by rw [← hkv1]; simpa using this)
    refine ⟨(successPrices outcomes).map (mkMetaPrice ac
      ((choose_best_provider (successPrices outcomes) ac nd bd btp).1)), ?_, ?_⟩
    · unfold get_swap_meta_price
      simp only [hall, Bool.false_eq_true, if_false]
    · rw [List.map_map]
      rw [show ((fun m : MetaPriceModel => m.provider) ∘
          mkMetaPrice ac ((choose_best_provider (successPrices outcomes) ac nd bd
            btp).1)) = Prod.fst from rfl]
      exact hkeys
  · intro hfail
    have hnone : (outcomes.map Prod.snd).filterMap Except.toOption = [] := by
      rw [List.filterMap_eq_nil_iff]
      intro o ho
      obtain ⟨po, hpo, hpoo⟩ := List.mem_map.mp ho
      have := hfail po hpo
      rw [hpoo] at *
      cases h : o.toOption with
      | none => rfl
      | some r => rw [h] at this; cases this
    have hempty : successPrices outcomes = [] := by
      unfold successPrices
      rw [hnone]
      rfl
    unfold get_swap_meta_price
    rw [hempty]
    rfl

/-- C2 witness: one success and one failure — the result keeps exactly the
succeeding provider; and the all-fail run raises `ValueError`. -/
theorem claim_C2_partial_failure_witness :
    (∃ l, get_swap_meta_price c2Outcomes (fun _ => 0) 0 0 1 = .ok l ∧
      l.map (fun m => m.provider) =
        (c2Outcomes.filter (fun po => po.2.toOption.isSome)).map Prod.fst) ∧
    get_swap_meta_price
        [("one_inch", .error (.aggregationProviderError "one_inch" "down"))]
        (fun _ => 0) 0 0 1 = .error (.valueError "No prices found") := by
  have hnames : ∀ po ∈ c2Outcomes, ∀ r, po.2 = Except.ok r → r.provider = po.1 := by
    intro po hpo r hr
    rcases List.mem_cons.mp hpo with h1 | hpo'
    · subst h1
      cases hr
      rfl
    · rcases List.mem_cons.mp hpo' with h2 | hpo''
      · subst h2
        cases hr
      · cases hpo''
  have h := claim_C2_partial_failure c2Outcomes (fun _ => 0) 0 0 1 hnames
    (by decide) (by decide)
  refine ⟨h.1 ⟨("one_inch", .ok c1Resp1), by simp [c2Outcomes], rfl⟩, ?_⟩
  have h2 := claim_C2_partial_failure
    [("one_inch", .error (.aggregationProviderError "one_inch" "down"))]
    (fun _ => 0) 0 0 1
    (by intro po hpo r hr; simp at hpo; subst hpo; cases hr)
    (by decide) (by decide)
  exact h2.2 (by intro po hpo; simp at hpo; subst hpo; rfl)

/-- C2 counterexample to the claim as stated: when every provider fails,
the call raises the builtin `ValueError('No prices found')`, not the typed
provider-owned `ProviderUnspecified` (HTTP 409) error the claim names. -/
theorem claim_C2_counterexample :
    get_swap_meta_price
        [("one_inch", .error (.aggregationProviderError "one_inch" "timeout")),
         ("zero_x", .error (.aggregationProviderError "zero_x" "timeout"))]
        (fun _ => 0) 18 18 1 = .error (.valueError "No prices found") ∧
    raisesProviderUnspecified (get_swap_meta_price
        [("one_inch", .error (.aggregationProviderError "one_inch" "timeout")),
         ("zero_x", .error (.aggregationProviderError "zero_x" "timeout"))]
        (fun _ => 0) 18 18 1) = false :=
  ⟨rfl, rfl⟩

/-! ## Allowance helpers -/

lemma get_token_allowance_max (native token : String) (owner : Option String)
    (cv : ℕ) (hcond : token = native ∨ pyStrFalsy owner = true) :
    get_token_allowance native token owner cv = (2 ^ 256 - 1, false) := by
  unfold get_token_allowance
  rw [if_pos hcond]

lemma foldl_preserve {α β : Type} (P : β → Prop) (f : β → α → β)
    (hstep : ∀ b a, P b → P (f b a)) :
    ∀ (l : List α) (init : β), P init → P (l.foldl f init) := by
  intro l
  induction l with
  | nil => intro init h; exact h
  | cons x xs ih => intro init h; exact ih _ (hstep init x h)

/-- C4 (amended): `get_swap_meta_price` sets
`isAllowed = (approveCost == 0)`; `get_provider_price` instead sets
`isAllowed = bool(allowance)` — nonzero allowance — and its `approveCost`
is the approve estimate exactly when `allowance < sellAmount`, so the two
disagree when the allowance is positive but below the sell amount; with
`takerAddress == null` both paths yield `approveCost == 0` and
`isAllowed == true` (for any 256-bit sell amount). -/
theorem claim_C4_is_allowed :
    (∀ (outcomes : List (String × Except PyExc ProviderPriceResponse))
        (ac : String → ℕ) (nd bd : ℕ) (btp : ℚ) (l : List MetaPriceModel),
      get_swap_meta_price outcomes ac nd bd btp = .ok l →
      ∀ m ∈ l, m.is_allowed = decide (m.approve_cost = 0)) ∧
    (∀ (registry : String → Bool) (provider : String) (descr : Option String)
        (native sell : String) (sellAmt : ℕ) (taker : Option String)
        (ca : Option String → ℕ) (ae : ℕ) (price : ProviderPriceResponse),
      provider ≠ "" → registry provider = true →
      get_provider_price registry provider descr native sell sellAmt taker ca ae price =
        .ok { provider := provider, price_response := price,
              is_allowed := decide ((get_token_allowance native sell taker (ca descr)).1 ≠ 0),
              is_best := none,
              approve_cost :=
                if (get_token_allowance native sell taker (ca descr)).1 < sellAmt
                then ae else 0 }) ∧
    (∀ (registry : String → Bool) (provider : String) (descr : Option String)
        (native sell : String) (sellAmt : ℕ)
        (ca : Option String → ℕ) (ae : ℕ) (price : ProviderPriceResponse),
      provider ≠ "" → registry provider = true → sellAmt ≤ 2 ^ 256 - 1 →
      get_provider_price registry provider descr native sell sellAmt none ca ae price =
        .ok { provider := provider, price_response := price, is_allowed := true,
              is_best := none, approve_cost := 0 }) ∧
    (∀ (native sell : String) (sellAmt : ℕ) (providers_ : List SpenderEntry)
        (ca ae : String → ℕ),
      ∀ kv ∈ get_approve_costs_per_provider native sell sellAmt providers_ none ca ae,
        kv.2 = 0) := by
  refine ⟨?_, ?_, ?_, ?_⟩
  · intro outcomes ac nd bd btp l h m hm
    obtain ⟨_, hl⟩ := get_swap_meta_price_ok h
    rw [hl] at hm
    obtain ⟨x, _, hxm⟩ := List.mem_map.mp hm
    rw [← hxm]
    rfl
  · intro registry provider descr native sell sellAmt taker ca ae price hp hreg
    simp only [get_provider_price]
    rw [if_neg hp, hreg]
    rfl
  · intro registry provider descr native sell sellAmt ca ae price hp hreg hsell
    have hta1 : (get_token_allowance native sell none (ca descr)).1 = 2 ^ 256 - 1 := by
      rw [get_token_allowance_max native sell none (ca descr) (Or.inr rfl)]
    have hnl : ¬((2 : ℕ) ^ 256 - 1 < sellAmt) := Nat.not_lt.mpr hsell
    simp only [get_provider_price, hta1]
    rw [if_neg hp, hreg, if_pos rfl, if_neg hnl]
    norm_num
  · intro native sell sellAmt providers_ ca ae
    unfold get_approve_costs_per_provider
    refine foldl_preserve (fun d : List (String × ℕ) => ∀ kv ∈ d, kv.2 = 0) _ ?_ providers_ [] (by simp)
    intro acc p hacc
    simp only [pyStrFalsy, reduceIte]
    exact @dictInsert_forall_values _ (fun v => v = 0) _ _ _ hacc rfl

/-- C4 witness: with no taker address, `get_provider_price` returns
`approve_cost = 0` and `is_allowed = true`. -/
theorem claim_C4_is_allowed_witness :
    get_provider_price (fun p => p = "one_inch") "one_inch" (some "0xspender")
        NATIVE_TOKEN_ADDRESS "0xa0b86991c6218b36c1d19d4a2e9eb0ce3606eb48" 100 none
        (fun _ => 7) 50000 sampleResp =
      .ok { provider := "one_inch", price_response := sampleResp, is_allowed := true,
            is_best := none, approve_cost := 0 } :=
  claim_C4_is_allowed.2.2.1 (fun p => p = "one_inch") "one_inch"
    (some "0xspender") NATIVE_TOKEN_ADDRESS
    "0xa0b86991c6218b36c1d19d4a2e9eb0ce3606eb48" 100 (fun _ => 7) 50000 sampleResp
    (by decide) (by decide) (by norm_num)

/-- C4 counterexample to the claim as stated: `get_provider_price` with
allowance 1 < sellAmount 2 and a 50000-gas approve estimate returns
`is_allowed = true` (nonzero allowance) together with
`approve_cost = 50000 ≠ 0`, so `isAllowed ≠ (approveCost == 0)`. -/
theorem claim_C4_counterexample :
    get_provider_price (fun p => p = "one_inch") "one_inch" (some "0xspender")
        NATIVE_TOKEN_ADDRESS "0xa0b86991c6218b36c1d19d4a2e9eb0ce3606eb48" 2
        (some "0xtaker") (fun _ => 1) 50000 sampleResp = .ok c4Meta ∧
    c4Meta.is_allowed = true ∧ c4Meta.approve_cost = 50000 ∧
    c4Meta.is_allowed ≠ decide (c4Meta.approve_cost = 0) := by
  exact ⟨rfl, rfl, rfl, by decide⟩

/-- C5: the 1inch price path reuses the local `sell_amount` after it was
humanized, so a native sell of `10^18` base units (18 decimals) produces
`value = 1` — not the claimed `value = sellAmount = 10^18`. -/
theorem claim_C5_value_code_bug :
    (one_inch_get_swap_price "one_inch" NATIVE_TOKEN_ADDRESS NATIVE_TOKEN_ADDRESS
        (10 ^ 18) (some (20 * 10 ^ 9))
        { fromToken := { decimals := 18 }, toToken := { decimals := 18 },
          toTokenAmount := 5 * 10 ^ 17, fromTokenAmount := 10 ^ 18,
          estimatedGas := 150000 }).value = 1 ∧
    ((1 : ℚ) ≠ ((10 ^ 18 : ℕ) : ℚ)) := by
  constructor
  · simp only [one_inch_get_swap_price]
    norm_num
  · norm_num

/-- C6 (amended): on every upstream answer with a non-empty `sources`
list, the ZeroX price adapter's conversion succeeds and passes the
upstream's `price` (and the raw buy/sell amounts) through verbatim; it
does not recompute `buyAmount / sellAmount`. -/
theorem claim_C6_price_passthrough (provider_name : String)
    (response : ZeroXPriceUpstream) (hs : response.sources ≠ []) :
    (zerox_convert_response_from_swap_price provider_name response).map
      (fun converted => converted.price) = .ok response.price ∧
    (zerox_convert_response_from_swap_price provider_name response).map
      (fun converted => converted.buy_amount) = .ok response.buyAmount ∧
    (zerox_convert_response_from_swap_price provider_name response).map
      (fun converted => converted.sell_amount) = .ok response.sellAmount := by
  unfold zerox_convert_response_from_swap_price convert_sources_for_meta_aggregation
  rw [if_neg hs]
  exact ⟨rfl, rfl, rfl⟩

/-- C6 witness: a concrete 0x `/swap/v1/price` answer with one liquidity
source — the converted response's price is the upstream's string, verbatim. -/
theorem claim_C6_price_passthrough_witness :
    (zerox_convert_response_from_swap_price "zero_x"
      { sources := [{ name := "SushiSwap", proportion := 1, hops := [] }],
        buyAmount := "500000000000000", gas := "150000", sellAmount := "1000000",
        gasPrice := "20000000000", value := "0", price := "0.5" }).map
      (fun converted => converted.price) = .ok "0.5" :=
  (claim_C6_price_passthrough "zero_x"
    { sources := [{ name := "SushiSwap", proportion := 1, hops := [] }],
      buyAmount := "500000000000000", gas := "150000", sellAmount := "1000000",
      gasPrice := "20000000000", value := "0", price := "0.5" }
    (by simp)).1

/-- C6 counterexample to the claim as stated: a 0x response (with a
non-empty sources list, so the conversion succeeds) whose `price` field
(999) is not `buyAmount / sellAmount` (= 2) is passed through unchanged —
the adapter trusts the upstream's `price`. -/
theorem claim_C6_counterexample :
    (zerox_convert_response_from_swap_price "zero_x"
      { sources := [{ name := "Uniswap", proportion := 1, hops := [] }],
        buyAmount := "2", gas := "1", sellAmount := "1",
        gasPrice := "1", value := "0", price := "999" }).map
      (fun converted => converted.price) = .ok "999" ∧
    ("999" : String) ≠ "2" := by
  constructor
  · unfold zerox_convert_response_from_swap_price convert_sources_for_meta_aggregation
    rw [if_neg (by simp)]
    rfl
  · decide

/-- C8: `get_provider_price` tests `if not provider:` — the name string —
instead of the resolved instance, so an unknown non-empty provider name
crashes with `AttributeError` on `None` rather than raising
`ProviderNotFound` as the function's own docstring promises; only a falsy
(empty) name reaches `ProviderNotFound`. -/
theorem claim_C8_unknown_provider_code_bug :
    get_provider_price (fun p => p = "one_inch") "no_such_provider" (some "0xspender")
        NATIVE_TOKEN_ADDRESS "0xa0b86991c6218b36c1d19d4a2e9eb0ce3606eb48" 100
        (some "0xtaker") (fun _ => 0) 50000 sampleResp =
      .error (.attributeError "NoneType object has no attribute get_swap_price") ∧
    get_provider_price (fun p => p = "one_inch") "no_such_provider" (some "0xspender")
        NATIVE_TOKEN_ADDRESS "0xa0b86991c6218b36c1d19d4a2e9eb0ce3606eb48" 100
        (some "0xtaker") (fun _ => 0) 50000 sampleResp ≠
      .error (.providerNotFound "no_such_provider") ∧
    get_provider_price (fun p => p = "one_inch") "" (some "0xspender")
        NATIVE_TOKEN_ADDRESS "0xa0b86991c6218b36c1d19d4a2e9eb0ce3606eb48" 100
        (some "0xtaker") (fun _ => 0) 50000 sampleResp =
      .error (.providerNotFound "") := by
  refine ⟨rfl, ?_, rfl⟩
  intro hcontra
  have heq : (Except.error
      (PyExc.attributeError "NoneType object has no attribute get_swap_price") :
      Except PyExc MetaPriceModel) =
      .error (.providerNotFound "no_such_provider") := hcontra
  exact PyExc.noConfusion (Except.error.inj heq)

/-- C9 (amended): the limit-order facade raises `ProviderNotFound` only for
a name unknown to the registry; a registered adapter that lacks the
limit-order capability (not `OneInchProviderV5` / `DebridgeDlnProviderV1`
for reads, not `OneInchProviderV5` for submit) gets
`NotImplementedError('provider … is not supported')` instead; in both
cases no adapter call is made — the result is independent of what the
adapter would have returned. -/
theorem claim_C9_limit_order_capability {α : Type}
    (provider_registry : String → Option AdapterClass) (provider : String)
    (a b : α) :
    (provider_registry provider = none →
      limit_orders_get_by_wallet_address provider_registry provider a =
        .error (.providerNotFound provider) ∧
      limit_orders_get_by_hash provider_registry provider a =
        .error (.providerNotFound provider) ∧
      limit_orders_post provider_registry provider a =
        .error (.providerNotFound provider)) ∧
    (provider_registry provider = some .otherAdapter →
      limit_orders_get_by_wallet_address provider_registry provider a =
        .error (.notImplementedError ("provider " ++ provider ++ " is not supported")) ∧
      limit_orders_get_by_hash provider_registry provider a =
        .error (.notImplementedError ("provider " ++ provider ++ " is not supported")) ∧
      limit_orders_post provider_registry provider a =
        .error (.notImplementedError ("provider " ++ provider ++ " is not supported"))) ∧
    (provider_registry provider = some .debridgeDlnProviderV1 →
      limit_orders_post provider_registry provider a =
        .error (.notImplementedError ("provider " ++ provider ++ " is not supported"))) ∧
    ((provider_registry provider = none ∨
        provider_registry provider = some .otherAdapter) →
      limit_orders_get_by_wallet_address provider_registry provider a =
        limit_orders_get_by_wallet_address provider_registry provider b ∧
      limit_orders_get_by_hash provider_registry provider a =
        limit_orders_get_by_hash provider_registry provider b ∧
      limit_orders_post provider_registry provider a =
        limit_orders_post provider_registry provider b) := by
  refine ⟨?_, ?_, ?_, ?_⟩
  · intro h
    unfold limit_orders_get_by_wallet_address limit_orders_get_by_hash
      limit_orders_post
    rw [h]
    exact ⟨rfl, rfl, rfl⟩
  · intro h
    unfold limit_orders_get_by_wallet_address limit_orders_get_by_hash
      limit_orders_post
    rw [h]
    exact ⟨rfl, rfl, rfl⟩
  · intro h
    unfold limit_orders_post
    rw [h]
    rfl
  · rintro (h | h) <;>
      · unfold limit_orders_get_by_wallet_address limit_orders_get_by_hash
          limit_orders_post
        rw [h]
        exact ⟨rfl, rfl, rfl⟩

/-- C9 witness: a registry holding only the 0x adapter — an unknown name
gets `ProviderNotFound`; the registered-but-incapable 0x adapter gets
`NotImplementedError`. -/
theorem claim_C9_limit_order_capability_witness :
    limit_orders_get_by_wallet_address
        (fun p => if p = "zero_x" then some AdapterClass.otherAdapter else none)
        "nope" (42 : ℕ) = .error (.providerNotFound "nope") ∧
    limit_orders_get_by_wallet_address
        (fun p => if p = "zero_x" then some AdapterClass.otherAdapter else none)
        "zero_x" (42 : ℕ) =
      .error (.notImplementedError "provider zero_x is not supported") := by
  have h1 := claim_C9_limit_order_capability
    (fun p => if p = "zero_x" then some AdapterClass.otherAdapter else none)
    "nope" (42 : ℕ) 43
  have h2 := claim_C9_limit_order_capability
    (fun p => if p = "zero_x" then some AdapterClass.otherAdapter else none)
    "zero_x" (42 : ℕ) 43
  exact ⟨(h1.1 (by decide)).1, (h2.2.1 (by decide)).1⟩

/-- C9 counterexample to the claim as stated: a registered provider without
the limit-order capability fails with `NotImplementedError`, not with the
claimed `ProviderNotFound`. -/
theorem claim_C9_counterexample :
    limit_orders_get_by_wallet_address
        (fun p => if p = "zero_x" then some AdapterClass.otherAdapter else none)
        "zero_x" (7 : ℕ) =
      .error (.notImplementedError "provider zero_x is not supported") ∧
    limit_orders_get_by_wallet_address
        (fun p => if p = "zero_x" then some AdapterClass.otherAdapter else none)
        "zero_x" (7 : ℕ) ≠ .error (.providerNotFound "zero_x") := by
  refine ⟨rfl, ?_⟩
  intro hcontra
  have heq : (Except.error
      (PyExc.notImplementedError "provider zero_x is not supported") :
      Except PyExc ℕ) = .error (.providerNotFound "zero_x") := hcontra
  exact PyExc.noConfusion (Except.error.inj heq)

/-- C10: with a native-sentinel sell token or an unset owner,
`get_token_allowance` returns `2^256 - 1` without the on-chain call; for
any 256-bit sell amount the `allowance < sellAmount` check is then false,
so no approve estimation happens and `approveCost` stays 0 in the
meta-price approve probe, in `get_provider_price`, and in the cross-chain
price path. -/
theorem claim_C10_native_allowance (native token : String) (owner : Option String)
    (chainValue sell_amount : ℕ)
    (hcond : token = native ∨ owner = none)
    (hsell : sell_amount ≤ 2 ^ 256 - 1) :
    get_token_allowance native token owner chainValue = (2 ^ 256 - 1, false) ∧
    ¬ ((get_token_allowance native token owner chainValue).1 < sell_amount) ∧
    (∀ (providers_ : List SpenderEntry) (ca ae : String → ℕ),
      ∀ kv ∈ get_approve_costs_per_provider native token sell_amount providers_
        owner ca ae, kv.2 = 0) ∧
    (∀ (registry : String → Bool) (provider : String) (descr : Option String)
        (ca : Option String → ℕ) (ae : ℕ) (price : ProviderPriceResponse),
      provider ≠ "" → registry provider = true →
      get_provider_price registry provider descr native token sell_amount owner
          ca ae price =
        .ok { provider := provider, price_response := price, is_allowed := true,
              is_best := none, approve_cost := 0 }) ∧
    (∀ (registry : String → Bool) (provider : String) (descr : Option String)
        (ca : Option String → ℕ) (ae : ℕ) (price : ProviderPriceResponse),
      registry provider = true →
      get_crosschain_provider_price registry provider descr native token
          sell_amount owner ca ae price =
        .ok { provider := provider, price_response := price, is_allowed := true,
              is_best := none, approve_cost := 0 }) := by
  have hcond' : token = native ∨ pyStrFalsy owner = true :=
    hcond.imp id (fun h => by rw [h]; rfl)
  have hta : ∀ cv, get_token_allowance native token owner cv = (2 ^ 256 - 1, false) :=
    fun cv => get_token_allowance_max native token owner cv hcond'
  have hta1 : ∀ cv, (get_token_allowance native token owner cv).1 = 2 ^ 256 - 1 :=
    fun cv => by rw [hta cv]
  have hnl : ¬((2 : ℕ) ^ 256 - 1 < sell_amount) := Nat.not_lt.mpr hsell
  refine ⟨hta chainValue, ?_, ?_, ?_, ?_⟩
  · rw [hta chainValue]
    exact hnl
  · intro providers_ ca ae
    unfold get_approve_costs_per_provider
    refine foldl_preserve (fun d : List (String × ℕ) => ∀ kv ∈ d, kv.2 = 0) _ ?_ providers_ [] (by simp)
    intro acc p hacc
    simp only [hta1 (ca p.address)]
    by_cases hfo : pyStrFalsy owner = true
    · rw [if_pos hfo]
      exact @dictInsert_forall_values _ (fun v => v = 0) _ _ _ hacc rfl
    · rw [if_neg hfo, if_neg hnl]
      exact @dictInsert_forall_values _ (fun v => v = 0) _ _ _ hacc rfl
  · intro registry provider descr ca ae price hp hreg
    simp only [get_provider_price, hta1 (ca descr)]
    rw [if_neg hp, hreg, if_pos rfl, if_neg hnl]
    norm_num
  · intro registry provider descr ca ae price hreg
    simp only [get_crosschain_provider_price, hreg, hta1]
    rw [if_neg (by simp), if_neg hnl]
    norm_num

/-- C10 witness: a native sell with an owner set — allowance is the
sentinel maximum, no on-chain call, approve cost 0 in both provider-price
paths. -/
theorem claim_C10_native_allowance_witness :
    get_token_allowance NATIVE_TOKEN_ADDRESS NATIVE_TOKEN_ADDRESS (some "0xowner") 5 =
      (2 ^ 256 - 1, false) ∧
    get_provider_price (fun p => p = "one_inch") "one_inch" (some "0xsp")
        NATIVE_TOKEN_ADDRESS NATIVE_TOKEN_ADDRESS 100 (some "0xowner") (fun _ => 5)
        50000 sampleResp =
      .ok { provider := "one_inch", price_response := sampleResp, is_allowed := true,
            is_best := none, approve_cost := 0 } ∧
    get_crosschain_provider_price (fun p => p = "debridge") "debridge" (some "0xsp")
        NATIVE_TOKEN_ADDRESS NATIVE_TOKEN_ADDRESS 100 (some "0xowner") (fun _ => 5)
        50000 sampleResp =
      .ok { provider := "debridge", price_response := sampleResp, is_allowed := true,
            is_best := none, approve_cost := 0 } := by
  have h := claim_C10_native_allowance NATIVE_TOKEN_ADDRESS NATIVE_TOKEN_ADDRESS
    (some "0xowner") 5 100 (Or.inl rfl) (by norm_num)
  exact ⟨h.1,
    h.2.2.2.1 (fun p => p = "one_inch") "one_inch" (some "0xsp") (fun _ => 5)
      50000 sampleResp (by decide) (by decide),
    h.2.2.2.2 (fun p => p = "debridge") "debridge" (some "0xsp") (fun _ => 5)
      50000 sampleResp (by decide)⟩

end MetaAggApi
